import Mathlib

/-
Verification of the 2D-N-body-gravity-simulator repository against its
natural-language specification.  The Python sources are shallowly embedded:
numpy float arrays become functions into the reals (exact real arithmetic),
python ints become naturals/integers, and the special IEEE values that the
gravity_plot energy routine can produce are modelled by an explicit inductive
wrapper around the reals.  Rational-only computations (Butcher tableaux, the
gravitational constants, the trim operation) are embedded over the rationals
so that concrete instances evaluate by decide.
-/

namespace NBody

/-- Points and 3-vectors; numpy rows of shape (3,) become triples of reals. -/
abbrev Vec3 := ℝ × ℝ × ℝ

/-- Embedding of numpy.linalg.norm on a length-3 vector: the square root of
the sum of the squared components. -/
noncomputable def vnorm (a : Vec3) : ℝ :=
  Real.sqrt (a.1 ^ 2 + a.2.1 ^ 2 + a.2.2 ^ 2)

/-- Modelled from the spec: the acceleration kernel `common.acceleration` is
imported by gravity_sim/simulator.py but common.py is not among the provided
sources.  Spec section 4.A: a_i = G * sum over j of m_j (x_j - x_i) divided by
the cubed distance.  No claim's truth depends on the internals of this kernel;
the embedded integrator defs below treat it as the source treats the call. -/
noncomputable def acceleration (n : ℕ) (x : ℕ → Vec3) (m : ℕ → ℝ) (G : ℝ) :
    ℕ → Vec3 :=
  fun i =>
    G • ∑ j in Finset.range n,
      if j = i then 0 else (m j / vnorm (x j - x i) ^ 3) • (x j - x i)

/- ----------------------------------------------------------------
Gravitational constants (claim C7).
gravity_plot/simulator.py lines 17-18, 21-22, 68-71 and the literal printed by
gravity_sim/__main__.py line 386, plus gravity_sim/grav_obj.py line 12.
---------------------------------------------------------------- -/

/-- Conversion factor from km^3 s^-2 to AU^3 d^-2,
gravity_plot/simulator.py line 18: (86400**2) / (149597870.7**3). -/
def CONVERSION_FACTOR : ℚ := (86400 ^ 2 : ℚ) / (149597870.7 : ℚ) ^ 3

/-- DE440 GM of the Sun in km^3 s^-2, gravity_plot/simulator.py line 22. -/
def GM_SI_Sun : ℚ := 132712440041.279419

/-- Simulator.CONSTANT_G = GM["Sun"] = GM_SI["Sun"] * CONVERSION_FACTOR,
gravity_plot/simulator.py lines 38 and 71. -/
def CONSTANT_G : ℚ := GM_SI_Sun * CONVERSION_FACTOR

/-- Grav_obj.G, the gravitational constant literal of
gravity_sim/grav_obj.py line 12. -/
def gravObjG : ℚ := 0.00029591220828559

/-- The G value printed to the user by gravity_sim/__main__.py line 386
("The default unit is M_sun, AU and day, G=0.00029591220828411."). -/
def printedG : ℚ := 0.00029591220828411

/-- A rational agrees with the spec's constant 0.00029591220828411... when its
decimal expansion starts with those digits. -/
def hasSpecGPrefix (g : ℚ) : Prop :=
  0.00029591220828411 ≤ g ∧ g < 0.00029591220828412

/- ----------------------------------------------------------------
Butcher tableaux of the embedded RK pairs (claims C4 and C10).
gravity_sim/simulator.py lines 341-745, rk_embedded_butcher_tableaus.
The literal float fractions are embedded as exact rationals.
---------------------------------------------------------------- -/

/-- Result record of rk_embedded_butcher_tableaus:
(power, power_test, coeff, weights, weights_test). -/
structure Tableau where
  power : ℕ
  power_test : ℕ
  coeff : List (List ℚ)
  weights : List ℚ
  weights_test : List ℚ

/-- RUNGE-KUTTA-FEHLBERG 4(5) branch (case 45) of
rk_embedded_butcher_tableaus. -/
def tableau45 : Tableau where
  power := 4
  power_test := 5
  coeff :=
    [[1/4, 0, 0, 0, 0],
     [3/32, 9/32, 0, 0, 0],
     [1932/2197, -7200/2197, 7296/2197, 0, 0],
     [439/216, -8, 3680/513, -845/4104, 0],
     [-8/27, 2, -3544/2565, 1859/4104, -11/40]]
  weights := [25/216, 0, 1408/2565, 2197/4104, -0.2, 0]
  weights_test := [16/135, 0, 6656/12825, 28561/56430, -9/50, 2/55]

/-- Commented-out node list of the case-45 branch
(gravity_sim/simulator.py line 364). -/
def nodes45 : List ℚ := [1/4, 3/8, 12/13, 1, 1/2]

/-- DORMAND-PRINCE 5(4) branch (case 54) of rk_embedded_butcher_tableaus. -/
def tableau54 : Tableau where
  power := 5
  power_test := 4
  coeff :=
    [[1/5, 0, 0, 0, 0, 0],
     [3/40, 9/40, 0, 0, 0, 0],
     [44/45, -56/15, 32/9, 0, 0, 0],
     [19372/6561, -25360/2187, 64448/6561, -212/729, 0, 0],
     [9017/3168, -355/33, 46732/5247, 49/176, -5103/18656, 0],
     [35/384, 0, 500/1113, 125/192, -2187/6784, 11/84]]
  weights := [35/384, 0, 500/1113, 125/192, -2187/6784, 11/84, 0]
  weights_test :=
    [5179/57600, 0, 7571/16695, 393/640, -92097/339200, 187/2100, 1/40]

/-- Commented-out node list of the case-54 branch
(gravity_sim/simulator.py line 394). -/
def nodes54 : List ℚ := [1/5, 3/10, 4/5, 8/9, 1, 1]

/-- RUNGE-KUTTA-FEHLBERG 7(8) branch (case 78) of
rk_embedded_butcher_tableaus. -/
def tableau78 : Tableau where
  power := 7
  power_test := 8
  coeff :=
    [[2/27, 0, 0, 0, 0, 0, 0, 0, 0, 0, 0, 0],
     [1/36, 1/12, 0, 0, 0, 0, 0, 0, 0, 0, 0, 0],
     [1/24, 0, 1/8, 0, 0, 0, 0, 0, 0, 0, 0, 0],
     [5/12, 0, -25/16, 25/16, 0, 0, 0, 0, 0, 0, 0, 0],
     [1/20, 0, 0, 1/4, 1/5, 0, 0, 0, 0, 0, 0, 0],
     [-25/108, 0, 0, 125/108, -65/27, 125/54, 0, 0, 0, 0, 0, 0],
     [31/300, 0, 0, 0, 61/225, -2/9, 13/900, 0, 0, 0, 0, 0],
     [2, 0, 0, -53/6, 704/45, -107/9, 67/90, 3, 0, 0, 0, 0],
     [-91/108, 0, 0, 23/108, -976/135, 311/54, -19/60, 17/6, -1/12, 0, 0, 0],
     [2383/4100, 0, 0, -341/164, 4496/1025, -301/82, 2133/4100, 45/82,
      45/164, 18/41, 0, 0],
     [3/205, 0, 0, 0, 0, -6/41, -3/205, -3/41, 3/41, 6/41, 0, 0],
     [-1777/4100, 0, 0, -341/164, 4496/1025, -289/82, 2193/4100, 51/82,
      33/164, 19/41, 0, 1]]
  weights :=
    [41/840, 0, 0, 0, 0, 34/105, 9/35, 9/35, 9/280, 9/280, 41/840, 0, 0]
  weights_test :=
    [0, 0, 0, 0, 0, 34/105, 9/35, 9/35, 9/280, 9/280, 0, 41/840, 41/840]

/-- Commented-out node list of the case-78 branch
(gravity_sim/simulator.py lines 454-469). -/
def nodes78 : List ℚ :=
  [2/27, 1/9, 1/6, 5/12, 1/2, 5/6, 1/6, 2/3, 1/3, 1, 0, 1]

/-- VERNER 6(5) DVERK branch (case 65) of rk_embedded_butcher_tableaus. -/
def tableau65 : Tableau where
  power := 6
  power_test := 7
  coeff :=
    [[1/6, 0, 0, 0, 0, 0, 0],
     [4/75, 16/75, 0, 0, 0, 0, 0],
     [5/6, -8/3, 5/2, 0, 0, 0, 0],
     [-165/64, 55/6, -425/64, 85/96, 0, 0, 0],
     [12/5, -8, 4015/612, -11/36, 88/255, 0, 0],
     [-8263/15000, 124/75, -643/680, -81/250, 2484/10625, 0, 0],
     [3501/1720, -300/43, 297275/52632, -319/2322, 24068/84065, 0,
      3850/26703]]
  weights := [3/40, 0, 875/2244, 23/72, 264/1955, 0, 125/11592, 43/616]
  weights_test := [13/160, 0, 2375/5984, 5/16, 12/85, 3/44, 0, 0]

/-- Commented-out node list of the case-65 branch
(gravity_sim/simulator.py lines 670-672). -/
def nodes65 : List ℚ := [1/6, 4/15, 2/3, 5/6, 1, 1/15, 1]

/-- Embedding of rk_embedded_butcher_tableaus (gravity_sim/simulator.py
lines 341-745).  The match on the order argument returns the corresponding
tableau; the default case raises ValueError, embedded as none. -/
def rk_embedded_butcher_tableaus (order : ℤ) : Option Tableau :=
  if order = 45 then some tableau45
  else if order = 54 then some tableau54
  else if order = 78 then some tableau78
  else if order = 65 then some tableau65
  else none

/-- Row sums of a stage-coefficient matrix. -/
def rowSums (c : List (List ℚ)) : List ℚ := c.map List.sum

section
open Classical

/- ----------------------------------------------------------------
Initial time step of the embedded RK driver (claim C3).
gravity_sim/simulator.py lines 161-213, _rk_embedded_initial_time_step.
---------------------------------------------------------------- -/

/-- Componentwise tolerance scale abs_tolerance + rel_tolerance * np.abs(w). -/
noncomputable def tolScale (a_tol r_tol : ℝ) (w : Vec3) : Vec3 :=
  (a_tol + r_tol * |w.1|, a_tol + r_tol * |w.2.1|, a_tol + r_tol * |w.2.2|)

/-- Embedding of np.sum(np.square(f / g)) for (n,3) arrays f, g
(elementwise quotient, square, total sum). -/
noncomputable def sqRatioSum (n : ℕ) (f g : ℕ → Vec3) : ℝ :=
  ∑ i in Finset.range n,
    (((f i).1 / (g i).1) ^ 2 + ((f i).2.1 / (g i).2.1) ^ 2 +
      ((f i).2.2 / (g i).2.2) ^ 2)

/-- Quantity d_0 of _rk_embedded_initial_time_step (lines 181-189):
the tolerance-scaled RMS norm of (x, v) over 6N components. -/
noncomputable def itsD0 (n : ℕ) (x v : ℕ → Vec3) (a_tol r_tol : ℝ) : ℝ :=
  Real.sqrt
    ((sqRatioSum n x (fun i => tolScale a_tol r_tol (x i)) +
        sqRatioSum n v (fun i => tolScale a_tol r_tol (v i))) / (n * 3 * 2))

/-- Quantity d_1 of _rk_embedded_initial_time_step (lines 186-190):
the tolerance-scaled RMS norm of (v, a) over 6N components, with v scaled by
the x tolerance scale and a by the v tolerance scale, as in the source. -/
noncomputable def itsD1 (n : ℕ) (x v a : ℕ → Vec3) (a_tol r_tol : ℝ) : ℝ :=
  Real.sqrt
    ((sqRatioSum n v (fun i => tolScale a_tol r_tol (x i)) +
        sqRatioSum n a (fun i => tolScale a_tol r_tol (v i))) / (n * 3 * 2))

/-- Quantity d_2 of _rk_embedded_initial_time_step (lines 197-205): the scaled
RMS change of v and a over one explicit Euler probe of size dt_0/100, divided
by dt_0. -/
noncomputable def itsD2 (n : ℕ) (x v a : ℕ → Vec3) (m : ℕ → ℝ) (G : ℝ)
    (a_tol r_tol dt_0 : ℝ) : ℝ :=
  let x_1 : ℕ → Vec3 := fun i => x i + (dt_0 / 100) • v i
  let v_1 : ℕ → Vec3 := fun i => v i + (dt_0 / 100) • a i
  let a_1 := acceleration n x_1 m G
  Real.sqrt
    ((sqRatioSum n (fun i => v_1 i - v i) (fun i => tolScale a_tol r_tol (x i)) +
        sqRatioSum n (fun i => a_1 i - a i) (fun i => tolScale a_tol r_tol (v i)))
      / (n * 3 * 2)) / dt_0

/-- Embedding of _rk_embedded_initial_time_step
(gravity_sim/simulator.py lines 161-213), with the branch conditions written
exactly as in the source. -/
noncomputable def rk_embedded_initial_time_step (n : ℕ) (power : ℕ)
    (x v a : ℕ → Vec3) (m : ℕ → ℝ) (G a_tol r_tol : ℝ) : ℝ :=
  let d_0 := itsD0 n x v a_tol r_tol
  let d_1 := itsD1 n x v a a_tol r_tol
  let dt_0 := if d_0 < 1e-5 ∨ d_1 < 1e-5 then 1e-4 else d_0 / d_1
  let d_2 := itsD2 n x v a m G a_tol r_tol dt_0
  let dt_1 :=
    if max d_1 d_2 ≤ 1e-15 then max 1e-6 (dt_0 * 1e-3)
    else (0.01 / max d_1 d_2) ^ ((1 : ℝ) / (1 + (power : ℝ)))
  min (100 * dt_0) dt_1 * 1e-3

/-- Claim-side rendering of the initial-step estimator, following the wording
of claim C3: dt_0 switches on min(d_0, d_1) < 1e-5, and the result is
1e-3 * min(100*dt_0, dt_1).  This definition is written from the claim to be
compared against the source embedding rk_embedded_initial_time_step. -/
noncomputable def initial_time_step_spec (n : ℕ) (power : ℕ)
    (x v a : ℕ → Vec3) (m : ℕ → ℝ) (G a_tol r_tol : ℝ) : ℝ :=
  let d_0 := itsD0 n x v a_tol r_tol
  let d_1 := itsD1 n x v a a_tol r_tol
  let dt_0 := if min d_0 d_1 < 1e-5 then 1e-4 else d_0 / d_1
  let d_2 := itsD2 n x v a m G a_tol r_tol dt_0
  let dt_1 :=
    if max d_1 d_2 ≤ 1e-15 then max 1e-6 (dt_0 * 1e-3)
    else (0.01 / max d_1 d_2) ^ ((1 : ℝ) / (1 + (power : ℝ)))
  1e-3 * min (100 * dt_0) dt_1

/- ----------------------------------------------------------------
The embedded RK step loop (claims C1 and C2).
gravity_sim/simulator.py lines 216-321, rk_embedded.
---------------------------------------------------------------- -/

/-- Stage coefficient access coeff[s][j] on the embedded coefficient lists. -/
def cIdx (coeff : List (List ℝ)) (s j : ℕ) : ℝ := (coeff.getD s []).getD j 0

/-- Stage arrays vk and xk of rk_embedded (lines 247-262), built stage by
stage: entry 0 is (acceleration(x), v); entry s for s >= 1 accumulates
coeff[s-1][j] over j < s exactly as the source loop does. -/
noncomputable def rk_stage_list (n : ℕ) (x v : ℕ → Vec3) (m : ℕ → ℝ)
    (G dt : ℝ) (coeff : List (List ℝ)) : ℕ → List ((ℕ → Vec3) × (ℕ → Vec3))
  | 0 => []
  | s + 1 =>
    let prev := rk_stage_list n x v m G dt coeff s
    let entry : (ℕ → Vec3) × (ℕ → Vec3) :=
      if s = 0 then (acceleration n x m G, v)
      else
        let temp_v : ℕ → Vec3 := fun i =>
          ∑ j in Finset.range s, cIdx coeff (s - 1) j • ((prev.getD j default).1 i)
        let temp_x : ℕ → Vec3 := fun i =>
          ∑ j in Finset.range s, cIdx coeff (s - 1) j • ((prev.getD j default).2 i)
        (acceleration n (fun i => x i + dt • temp_x i) m G,
          fun i => v i + dt • temp_v i)
    prev ++ [entry]

/-- Stage array vk[s] of rk_embedded (stage count = weights.length). -/
noncomputable def rk_vk (n : ℕ) (x v : ℕ → Vec3) (m : ℕ → ℝ) (G dt : ℝ)
    (coeff : List (List ℝ)) (stages s : ℕ) : ℕ → Vec3 :=
  ((rk_stage_list n x v m G dt coeff stages).getD s default).1

/-- Stage array xk[s] of rk_embedded. -/
noncomputable def rk_xk (n : ℕ) (x v : ℕ → Vec3) (m : ℕ → ℝ) (G dt : ℝ)
    (coeff : List (List ℝ)) (stages s : ℕ) : ℕ → Vec3 :=
  ((rk_stage_list n x v m G dt coeff stages).getD s default).2

/-- Advanced position x_1 = x + dt * sum of weights[s] * xk[s]
(rk_embedded lines 264-279). -/
noncomputable def rk_x1 (n : ℕ) (x v : ℕ → Vec3) (m : ℕ → ℝ) (G dt : ℝ)
    (coeff : List (List ℝ)) (weights : List ℝ) : ℕ → Vec3 :=
  fun i => x i + dt • ∑ s in Finset.range weights.length,
    weights.getD s 0 • rk_xk n x v m G dt coeff weights.length s i

/-- Advanced velocity v_1 = v + dt * sum of weights[s] * vk[s]. -/
noncomputable def rk_v1 (n : ℕ) (x v : ℕ → Vec3) (m : ℕ → ℝ) (G dt : ℝ)
    (coeff : List (List ℝ)) (weights : List ℝ) : ℕ → Vec3 :=
  fun i => v i + dt • ∑ s in Finset.range weights.length,
    weights.getD s 0 • rk_vk n x v m G dt coeff weights.length s i

/-- Error delta for x: dt times the (weights - weights_test)-weighted stage sum
(rk_embedded lines 267-281). -/
noncomputable def rk_delta_x (n : ℕ) (x v : ℕ → Vec3) (m : ℕ → ℝ) (G dt : ℝ)
    (coeff : List (List ℝ)) (weights weights_test : List ℝ) : ℕ → Vec3 :=
  fun i => dt • ∑ s in Finset.range weights.length,
    (weights.getD s 0 - weights_test.getD s 0) •
      rk_xk n x v m G dt coeff weights.length s i

/-- Error delta for v. -/
noncomputable def rk_delta_v (n : ℕ) (x v : ℕ → Vec3) (m : ℕ → ℝ) (G dt : ℝ)
    (coeff : List (List ℝ)) (weights weights_test : List ℝ) : ℕ → Vec3 :=
  fun i => dt • ∑ s in Finset.range weights.length,
    (weights.getD s 0 - weights_test.getD s 0) •
      rk_vk n x v m G dt coeff weights.length s i

/-- Componentwise scale abs_tolerance + np.maximum(np.abs(w), np.abs(w1)) *
rel_tolerance (rk_embedded lines 284-289). -/
noncomputable def tolScaleMax (a_tol r_tol : ℝ) (w w1 : Vec3) : Vec3 :=
  (a_tol + max |w.1| |w1.1| * r_tol,
   a_tol + max |w.2.1| |w1.2.1| * r_tol,
   a_tol + max |w.2.2| |w1.2.2| * r_tol)

/-- Error estimate of one rk_embedded attempt (lines 283-295): the RMS of the
tolerance-scaled deltas over 6N components. -/
noncomputable def rk_error (n : ℕ) (x v : ℕ → Vec3) (m : ℕ → ℝ) (G dt : ℝ)
    (coeff : List (List ℝ)) (weights weights_test : List ℝ)
    (a_tol r_tol : ℝ) : ℝ :=
  let x1 := rk_x1 n x v m G dt coeff weights
  let v1 := rk_v1 n x v m G dt coeff weights
  let dx := rk_delta_x n x v m G dt coeff weights weights_test
  let dv := rk_delta_v n x v m G dt coeff weights weights_test
  Real.sqrt
    ((sqRatioSum n dx (fun i => tolScaleMax a_tol r_tol (x i) (x1 i)) +
        sqRatioSum n dv (fun i => tolScaleMax a_tol r_tol (v i) (v1 i)))
      / (n * 3 * 2))

/-- Safety factor 0.38 ** (1.0 / (1.0 + min_power)) of rk_embedded line 245. -/
noncomputable def safety_fac (min_power : ℕ) : ℝ :=
  (0.38 : ℝ) ^ ((1 : ℝ) / (1 + (min_power : ℝ)))

/-- Step proposal dt_new of rk_embedded (lines 302-305): dt when err is 0,
otherwise dt * safety_fac / err ** (1/(1+min_power)). -/
noncomputable def rk_dt_proposal (dt err : ℝ) (min_power : ℕ) : ℝ :=
  if err = 0 then dt
  else dt * safety_fac min_power / err ^ ((1 : ℝ) / (1 + (min_power : ℝ)))

/-- Clamp of the step proposal relative to the previous step
(rk_embedded lines 306-312, safety_fac_max = 6.0 and safety_fac_min = 0.33). -/
noncomputable def rk_dt_clamped (dt err : ℝ) (min_power : ℕ) : ℝ :=
  if rk_dt_proposal dt err min_power > 6.0 * dt then 6.0 * dt
  else if rk_dt_proposal dt err min_power < 0.33 * dt then 0.33 * dt
  else rk_dt_proposal dt err min_power

/-- Step-size update of rk_embedded (lines 302-315): the clamped proposal,
overridden by the floor branch triggered by
dt_new / expected_time_scale < 1e-12. -/
noncomputable def rk_new_dt (dt err ets : ℝ) (min_power : ℕ) : ℝ :=
  if rk_dt_proposal dt err min_power / ets < 1e-12 then ets * 1e-12
  else rk_dt_clamped dt err min_power

/-- Claim-side step proposal, following the wording of claim C2:
h_new = h * safety_fac * err^(-1/(1+p_min)), and h when err = 0.  Written from
the claim to be compared against the source embedding rk_dt_proposal. -/
noncomputable def rk_dt_proposal_spec (dt err : ℝ) (min_power : ℕ) : ℝ :=
  if err = 0 then dt
  else dt * safety_fac min_power * err ^ (-((1 : ℝ) / (1 + (min_power : ℝ))))

/-- Claim-side rendering of the step-size update, following the wording of
claim C2: the proposal clamped into [0.33*h, 6.0*h], and the resulting step
equal to the maximum of the clamped value and the floor
expected_time_scale * 1e-12.  Written from the claim to be compared against
the source embedding rk_new_dt. -/
noncomputable def rk_new_dt_spec (dt err ets : ℝ) (min_power : ℕ) : ℝ :=
  max (max (0.33 * dt) (min (6.0 * dt) (rk_dt_proposal_spec dt err min_power)))
    (ets * 1e-12)

/-- One iteration of the rk_embedded attempt loop (lines 251-315): compute the
error, advance (t, x, v) when the attempt is accepted, and update the step. -/
noncomputable def rk_embedded_body (n : ℕ) (m : ℕ → ℝ) (G ets : ℝ)
    (power power_test : ℕ) (coeff : List (List ℝ))
    (weights weights_test : List ℝ) (a_tol r_tol : ℝ)
    (t : ℝ) (x v : ℕ → Vec3) (dt : ℝ) :
    ℝ × (ℕ → Vec3) × (ℕ → Vec3) × ℝ :=
  let err := rk_error n x v m G dt coeff weights weights_test a_tol r_tol
  if err ≤ 1 ∨ dt = ets * 1e-12 then
    (t + dt, rk_x1 n x v m G dt coeff weights, rk_v1 n x v m G dt coeff weights,
      rk_new_dt dt err ets (min power power_test))
  else
    (t, x, v, rk_new_dt dt err ets (min power power_test))

/-- The bounded attempt loop of rk_embedded (lines 251-321): iterate the body;
return after an attempt with index at least min_iteration once t has advanced
past simulation_time + expected_time_scale * 1e-5, or when the fuel
(max_iteration attempts) is exhausted. -/
noncomputable def rk_embedded_loop (n : ℕ) (m : ℕ → ℝ) (G ets : ℝ)
    (power power_test : ℕ) (coeff : List (List ℝ))
    (weights weights_test : List ℝ) (a_tol r_tol : ℝ)
    (simulation_time : ℝ) (min_iteration : ℕ) :
    ℕ → ℕ → ℝ → (ℕ → Vec3) → (ℕ → Vec3) → ℝ →
      ((ℕ → Vec3) × (ℕ → Vec3) × ℝ × ℝ)
  | 0, _, t, x, v, dt => (x, v, t, dt)
  | fuel + 1, i, t, x, v, dt =>
    let r := rk_embedded_body n m G ets power power_test coeff weights
      weights_test a_tol r_tol t x v dt
    if min_iteration ≤ i ∧ r.1 > simulation_time + ets * 1e-5 then
      (r.2.1, r.2.2.1, r.1, r.2.2.2)
    else
      rk_embedded_loop n m G ets power power_test coeff weights weights_test
        a_tol r_tol simulation_time min_iteration fuel (i + 1)
        r.1 r.2.1 r.2.2.1 r.2.2.2

/-- Embedding of rk_embedded (gravity_sim/simulator.py lines 216-321),
returning (x, v, t, actual_dt). -/
noncomputable def rk_embedded (n : ℕ) (x v : ℕ → Vec3) (m : ℕ → ℝ)
    (G ets simulation_time actual_dt : ℝ) (power power_test : ℕ)
    (coeff : List (List ℝ)) (weights weights_test : List ℝ)
    (max_iteration min_iteration : ℕ) (a_tol r_tol : ℝ) :
    (ℕ → Vec3) × (ℕ → Vec3) × ℝ × ℝ :=
  rk_embedded_loop n m G ets power power_test coeff weights weights_test
    a_tol r_tol simulation_time min_iteration max_iteration 0
    simulation_time x v actual_dt

/- ----------------------------------------------------------------
Energy diagnostics (claim C6).
gravity_sim/simulator.py lines 324-337, total_energy;
gravity_plot/simulator.py lines 495-549, Simulator.compute_energy
(the numpy branch, lines 522-549).
---------------------------------------------------------------- -/

/-- Values an IEEE double expression can take in the embedded energy
computations: a finite real, positive or negative infinity, or NaN. -/
inductive FVal
  | fin : ℝ → FVal
  | inf : FVal
  | neginf : FVal
  | nan : FVal

/-- IEEE addition on embedded double values. -/
def FVal.add : FVal → FVal → FVal
  | fin a, fin b => fin (a + b)
  | fin _, inf => inf
  | inf, fin _ => inf
  | inf, inf => inf
  | fin _, neginf => neginf
  | neginf, fin _ => neginf
  | neginf, neginf => neginf
  | inf, neginf => nan
  | neginf, inf => nan
  | nan, _ => nan
  | _, nan => nan

/-- IEEE subtraction on embedded double values. -/
def FVal.sub : FVal → FVal → FVal
  | fin a, fin b => fin (a - b)
  | fin _, inf => neginf
  | inf, fin _ => inf
  | inf, neginf => inf
  | fin _, neginf => inf
  | neginf, fin _ => neginf
  | neginf, inf => neginf
  | inf, inf => nan
  | neginf, neginf => nan
  | nan, _ => nan
  | _, nan => nan

/-- IEEE division on embedded double values; division of a finite value by
zero yields an infinity of the numerator's sign, and 0/0 yields NaN. -/
noncomputable def FVal.div : FVal → FVal → FVal
  | fin a, fin b =>
    if b = 0 then (if 0 < a then inf else if a < 0 then neginf else nan)
    else fin (a / b)
  | fin _, inf => fin 0
  | fin _, neginf => fin 0
  | inf, fin b => if b < 0 then neginf else inf
  | neginf, fin b => if b < 0 then inf else neginf
  | inf, inf => nan
  | inf, neginf => nan
  | neginf, inf => nan
  | neginf, neginf => nan
  | nan, _ => nan
  | _, nan => nan

/-- Inner pair loop of total_energy (gravity_sim/simulator.py lines 329-336)
for a fixed j: fold the potential terms over the remaining k indices into the
accumulator E; the branch norm == 0 is the early return np.nan, embedded as
none. -/
noncomputable def total_energy_inner (G : ℝ) (m : ℕ → ℝ) (x : ℕ → Vec3)
    (j : ℕ) : List ℕ → ℝ → Option ℝ
  | [], E => some E
  | k :: ks, E =>
    if j < k then
      if vnorm (x j - x k) ≠ 0 then
        total_energy_inner G m x j ks
          (E - G * m j * m k / vnorm (x j - x k))
      else none
    else total_energy_inner G m x j ks E

/-- Outer loop of total_energy (lines 327-337): add the kinetic term of body j
then run the pair loop; a none from the pair loop is the early return of
np.nan from the whole function. -/
noncomputable def total_energy_outer (n : ℕ) (G : ℝ) (m : ℕ → ℝ)
    (x v : ℕ → Vec3) : List ℕ → ℝ → Option ℝ
  | [], E => some E
  | j :: js, E =>
    match total_energy_inner G m x j (List.range n)
        (E + 0.5 * m j * vnorm (v j) ^ 2) with
    | none => none
    | some E2 => total_energy_outer n G m x v js E2

/-- Embedding of total_energy (gravity_sim/simulator.py lines 324-337).
The early return np.nan becomes FVal.nan. -/
noncomputable def total_energy (n : ℕ) (x v : ℕ → Vec3) (m : ℕ → ℝ)
    (G : ℝ) : FVal :=
  match total_energy_outer n G m x v (List.range n) 0 with
  | none => FVal.nan
  | some E => FVal.fin E

/-- Position slice x[i*3 : (i+1)*3] of a flattened 6N state row
(gravity_plot/simulator.py line 547). -/
def statePos (row : ℕ → ℝ) (i : ℕ) : Vec3 :=
  (row (i * 3), row (i * 3 + 1), row (i * 3 + 2))

/-- Velocity slice x[(nobj+i)*3 : (nobj+1+i)*3] of a flattened state row
(gravity_plot/simulator.py lines 531-537). -/
def stateVel (row : ℕ → ℝ) (nobj i : ℕ) : Vec3 :=
  (row ((nobj + i) * 3), row ((nobj + i) * 3 + 1), row ((nobj + i) * 3 + 2))

/-- Potential-energy inner loop of Simulator.compute_energy
(gravity_plot/simulator.py lines 541-549): for j in range(i+1, nobj) the
accumulator receives energy - G * m[i] * m[j] / norm difference, with the IEEE
semantics of the division (no zero check in the source). -/
noncomputable def compute_energy_pe (G : ℝ) (m : ℕ → ℝ) (row : ℕ → ℝ)
    (i : ℕ) : List ℕ → FVal → FVal
  | [], E => E
  | j :: js, E =>
    compute_energy_pe G m row i js
      (E.sub ((FVal.fin (G * m i * m j)).div
        (FVal.fin (vnorm (statePos row i - statePos row j)))))

/-- Outer body loop of Simulator.compute_energy (lines 526-549): kinetic term
of body i, then the potential pair loop over j in range(i+1, nobj). -/
noncomputable def compute_energy_outer (nobj : ℕ) (G : ℝ) (m : ℕ → ℝ)
    (row : ℕ → ℝ) : List ℕ → FVal → FVal
  | [], E => E
  | i :: is, E =>
    compute_energy_outer nobj G m row is
      (compute_energy_pe G m row i (List.range' (i + 1) (nobj - (i + 1)))
        (E.add (FVal.fin (0.5 * m i * vnorm (stateVel row nobj i) ^ 2))))

/-- Embedding of the per-sample energy of Simulator.compute_energy
(gravity_plot/simulator.py lines 522-549, the numpy branch): the value stored
into self.energy[count] for the sample with flattened state row. -/
noncomputable def compute_energy_sample (nobj : ℕ) (row : ℕ → ℝ)
    (m : ℕ → ℝ) (G : ℝ) : FVal :=
  compute_energy_outer nobj G m row (List.range nobj) (FVal.fin 0)

end

/- ----------------------------------------------------------------
Preset system catalog (claim C5).
gravity_plot/simulator.py lines 16-159 (constants) and 173-462
(initialize_system_numpy).  All numeric literals are embedded exactly.
---------------------------------------------------------------- -/

/-- Real-valued conversion factor of gravity_plot/simulator.py line 18,
as used by the preset catalog. -/
noncomputable def plotConversionFactor : ℝ :=
  (86400 ^ 2 : ℝ) / (149597870.7 : ℝ) ^ 3

/-- Real-valued Simulator.CONSTANT_G = GM["Sun"] (gravity_plot/simulator.py
lines 38 and 71), the G assigned by initialize_system_numpy line 174. -/
noncomputable def plotG : ℝ := 132712440041.279419 * plotConversionFactor

/-- SOLAR_SYSTEM_MASSES: heliocentric mass ratios GM_SI[body] / GM_SI["Sun"]
(gravity_plot/simulator.py lines 53-67). -/
noncomputable def massSun : ℝ := 1.0

/-- Mass ratio of Mercury. -/
noncomputable def massMercury : ℝ := 22031.868551 / 132712440041.279419

/-- Mass ratio of Venus. -/
noncomputable def massVenus : ℝ := 324858.592000 / 132712440041.279419

/-- Mass ratio of Earth. -/
noncomputable def massEarth : ℝ := 398600.435507 / 132712440041.279419

/-- Mass ratio of Mars. -/
noncomputable def massMars : ℝ := 42828.375816 / 132712440041.279419

/-- Mass ratio of Jupiter. -/
noncomputable def massJupiter : ℝ := 126712764.100000 / 132712440041.279419

/-- Mass ratio of Saturn. -/
noncomputable def massSaturn : ℝ := 37940584.841800 / 132712440041.279419

/-- Mass ratio of Uranus. -/
noncomputable def massUranus : ℝ := 5794556.400000 / 132712440041.279419

/-- Mass ratio of Neptune. -/
noncomputable def massNeptune : ℝ := 6836527.100580 / 132712440041.279419

/-- Mass ratio of the Moon. -/
noncomputable def massMoon : ℝ := 4902.800118 / 132712440041.279419

/-- Mass ratio of Pluto. -/
noncomputable def massPluto : ℝ := 975.500000 / 132712440041.279419

/-- Mass ratio of Ceres. -/
noncomputable def massCeres : ℝ := 62.62890 / 132712440041.279419

/-- Mass ratio of Vesta. -/
noncomputable def massVesta : ℝ := 17.288245 / 132712440041.279419

/-- SOLAR_SYSTEM_POS entries (gravity_plot/simulator.py lines 78-104). -/
noncomputable def posSun : Vec3 :=
  (-7.967955691533730e-3, -2.906227441573178e-3, 2.103054301547123e-4)

/-- DE440 position of Mercury. -/
noncomputable def posMercury : Vec3 :=
  (-2.825983269538632e-1, 1.974559795958082e-1, 4.177433558063677e-2)

/-- DE440 position of Venus. -/
noncomputable def posVenus : Vec3 :=
  (-7.232103701666379e-1, -7.948302026312400e-2, 4.042871428174315e-2)

/-- DE440 position of Earth. -/
noncomputable def posEarth : Vec3 :=
  (-1.738192017257054e-1, 9.663245550235138e-1, 1.553901854897183e-4)

/-- DE440 position of Mars. -/
noncomputable def posMars : Vec3 :=
  (-3.013262392582653e-1, -1.454029331393295, -2.300531433991428e-2)

/-- DE440 position of Jupiter. -/
noncomputable def posJupiter : Vec3 :=
  (3.485202469657674, 3.552136904413157, -9.271035442798399e-2)

/-- DE440 position of Saturn. -/
noncomputable def posSaturn : Vec3 :=
  (8.988104223143450, -3.719064854634689, -2.931937777323593e-1)

/-- DE440 position of Uranus. -/
noncomputable def posUranus : Vec3 :=
  (1.226302417897505e1, 1.529738792480545e1, -1.020549026883563e-1)

/-- DE440 position of Neptune. -/
noncomputable def posNeptune : Vec3 :=
  (2.983501460984741e1, -1.793812957956852, -6.506401132254588e-1)

/-- DE440 position of the Moon. -/
noncomputable def posMoon : Vec3 :=
  (-1.762788124769829e-1, 9.674377513177153e-1, 3.236901585768862e-4)

/-- DE440 position of Pluto. -/
noncomputable def posPluto : Vec3 :=
  (1.720200478843485e1, -3.034155683573043e1, -1.729127607100611)

/-- DE440 position of Ceres. -/
noncomputable def posCeres : Vec3 :=
  (-1.103880510367569, -2.533340440444230, 1.220283937721780e-1)

/-- DE440 position of Vesta. -/
noncomputable def posVesta : Vec3 :=
  (-8.092549658731499e-2, 2.558381434460076, -6.695836142398572e-2)

/-- SOLAR_SYSTEM_VEL entries (gravity_plot/simulator.py lines 105-159). -/
noncomputable def velSun : Vec3 :=
  (4.875094764261564e-6, -7.057133213976680e-6, -4.573453713094512e-8)

/-- DE440 velocity of Mercury. -/
noncomputable def velMercury : Vec3 :=
  (-2.232165900189702e-2, -2.157207103176252e-2, 2.855193410495743e-4)

/-- DE440 velocity of Venus. -/
noncomputable def velVenus : Vec3 :=
  (2.034068201002341e-3, -2.020828626592994e-2, -3.945639843855159e-4)

/-- DE440 velocity of Earth. -/
noncomputable def velEarth : Vec3 :=
  (-1.723001232538228e-2, -2.967721342618870e-3, 6.382125383116755e-7)

/-- DE440 velocity of Mars. -/
noncomputable def velMars : Vec3 :=
  (1.424832259345280e-2, -1.579236181580905e-3, -3.823722796161561e-4)

/-- DE440 velocity of Jupiter. -/
noncomputable def velJupiter : Vec3 :=
  (-5.470970658852281e-3, 5.642487338479145e-3, 9.896190602066252e-5)

/-- DE440 velocity of Saturn. -/
noncomputable def velSaturn : Vec3 :=
  (1.822013845554067e-3, 5.143470425888054e-3, -1.617235904887937e-4)

/-- DE440 velocity of Uranus. -/
noncomputable def velUranus : Vec3 :=
  (-3.097615358317413e-3, 2.276781932345769e-3, 4.860433222241686e-5)

/-- DE440 velocity of Neptune. -/
noncomputable def velNeptune : Vec3 :=
  (1.676536611817232e-4, 3.152098732861913e-3, -6.877501095688201e-5)

/-- DE440 velocity of the Moon. -/
noncomputable def velMoon : Vec3 :=
  (-1.746667306153906e-2, -3.473438277358121e-3, -3.359028758606074e-5)

/-- DE440 velocity of Pluto. -/
noncomputable def velPluto : Vec3 :=
  (2.802810313667557e-3, 8.492056438614633e-4, -9.060790113327894e-4)

/-- DE440 velocity of Ceres. -/
noncomputable def velCeres : Vec3 :=
  (8.978653480111301e-3, -4.873256528198994e-3, -1.807162046049230e-3)

/-- DE440 velocity of Vesta. -/
noncomputable def velVesta : Vec3 :=
  (-1.017876585480054e-2, -5.452367109338154e-4, 1.255870551153315e-3)

/-- Weighted sum of vectors with the given mass list: the quantity
sum of m_i * p_i of claim C5. -/
noncomputable def weightedSum (m : List ℝ) (p : List Vec3) : Vec3 :=
  (List.zipWith (fun a w => a • w) m p).sum

/-- Masses of the circular_binary_orbit preset
(gravity_plot/simulator.py lines 212-220). -/
noncomputable def circular_binary_orbit_m : List ℝ :=
  [1.0 / plotG, 1.0 / plotG]

/-- Positions of the circular_binary_orbit preset. -/
noncomputable def circular_binary_orbit_x : List Vec3 :=
  [(1.0, 0.0, 0.0), (-1.0, 0.0, 0.0)]

/-- Velocities of the circular_binary_orbit preset. -/
noncomputable def circular_binary_orbit_v : List Vec3 :=
  [(0.0, 0.5, 0.0), (0.0, -0.5, 0.0)]

/-- Masses of the eccentric_binary_orbit preset (lines 222-230). -/
noncomputable def eccentric_binary_orbit_m : List ℝ :=
  [1.0 / plotG, 0.8 / plotG]

/-- Positions of the eccentric_binary_orbit preset. -/
noncomputable def eccentric_binary_orbit_x : List Vec3 :=
  [(1.0, 0.0, 0.0), (-1.25, 0.0, 0.0)]

/-- Velocities of the eccentric_binary_orbit preset. -/
noncomputable def eccentric_binary_orbit_v : List Vec3 :=
  [(0.0, 0.5, 0.0), (0.0, -0.625, 0.0)]

/-- Speed scale v0 = sqrt(1 / sqrt(3)) of the 3d_helix preset (line 236). -/
noncomputable def helix_v0 : ℝ := Real.sqrt (1.0 / Real.sqrt 3)

/-- Masses of the 3d_helix preset (lines 232-243). -/
noncomputable def helix_m : List ℝ :=
  [1.0 / plotG, 1.0 / plotG, 1.0 / plotG]

/-- Positions of the 3d_helix preset. -/
noncomputable def helix_x : List Vec3 :=
  [(0.0, 0.0, -1.0),
   (-(Real.sqrt 3.0) / 2.0, 0.0, 0.5),
   (Real.sqrt 3.0 / 2.0, 0.0, 0.5)]

/-- Velocities of the 3d_helix preset. -/
noncomputable def helix_v : List Vec3 :=
  [(-helix_v0, 0.5, 0.0),
   (0.5 * helix_v0, 0.5, (Real.sqrt 3.0 / 2.0) * helix_v0),
   (0.5 * helix_v0, 0.5, -((Real.sqrt 3.0 / 2.0) * helix_v0))]

/-- Masses of the figure-8 preset (lines 281-291). -/
noncomputable def figure8_m : List ℝ :=
  [1.0 / plotG, 1.0 / plotG, 1.0 / plotG]

/-- Positions of the figure-8 preset. -/
noncomputable def figure8_x : List Vec3 :=
  [(0.970043, -0.24308753, 0.0), (-0.970043, 0.24308753, 0.0),
   (0.0, 0.0, 0.0)]

/-- Velocities of the figure-8 preset. -/
noncomputable def figure8_v : List Vec3 :=
  [(0.466203685, 0.43236573, 0.0), (0.466203685, 0.43236573, 0.0),
   (-0.93240737, -0.86473146, 0.0)]

/-- Masses of the pyth-3-body preset (lines 293-303). -/
noncomputable def pyth3body_m : List ℝ :=
  [3.0 / plotG, 4.0 / plotG, 5.0 / plotG]

/-- Positions of the pyth-3-body preset. -/
noncomputable def pyth3body_x : List Vec3 :=
  [(1.0, 3.0, 0.0), (-2.0, -1.0, 0.0), (1.0, -1.0, 0.0)]

/-- Velocities of the pyth-3-body preset. -/
noncomputable def pyth3body_v : List Vec3 :=
  [(0.0, 0.0, 0.0), (0.0, 0.0, 0.0), (0.0, 0.0, 0.0)]

/-- Masses of the sun_earth_moon preset (lines 245-252). -/
noncomputable def sun_earth_moon_m : List ℝ := [massSun, massEarth, massMoon]

/-- Raw DE440 positions composed by the sun_earth_moon branch. -/
noncomputable def sun_earth_moon_pos : List Vec3 := [posSun, posEarth, posMoon]

/-- Raw DE440 velocities composed by the sun_earth_moon branch. -/
noncomputable def sun_earth_moon_vel : List Vec3 := [velSun, velEarth, velMoon]

/-- Position barycenter R_CM of the sun_earth_moon branch (lines 253-261). -/
noncomputable def sun_earth_moon_R_CM : Vec3 :=
  (1 / sun_earth_moon_m.sum) •
    (massSun • posSun + massEarth • posEarth + massMoon • posMoon)

/-- Velocity barycenter V_CM of the sun_earth_moon branch (lines 262-270). -/
noncomputable def sun_earth_moon_V_CM : Vec3 :=
  (1 / sun_earth_moon_m.sum) •
    (massSun • velSun + massEarth • velEarth + massMoon • velMoon)

/-- Positions of the sun_earth_moon preset after barycenter subtraction
(lines 271-277). -/
noncomputable def sun_earth_moon_x : List Vec3 :=
  [posSun - sun_earth_moon_R_CM, posEarth - sun_earth_moon_R_CM,
   posMoon - sun_earth_moon_R_CM]

/-- Velocities of the sun_earth_moon preset after barycenter subtraction. -/
noncomputable def sun_earth_moon_v : List Vec3 :=
  [velSun - sun_earth_moon_V_CM, velEarth - sun_earth_moon_V_CM,
   velMoon - sun_earth_moon_V_CM]

/-- Masses of the solar_system preset (lines 305-318). -/
noncomputable def solar_system_m : List ℝ :=
  [massSun, massMercury, massVenus, massEarth, massMars, massJupiter,
   massSaturn, massUranus, massNeptune]

/-- Raw DE440 positions composed by the solar_system branch. -/
noncomputable def solar_system_pos : List Vec3 :=
  [posSun, posMercury, posVenus, posEarth, posMars, posJupiter, posSaturn,
   posUranus, posNeptune]

/-- Raw DE440 velocities composed by the solar_system branch. -/
noncomputable def solar_system_vel : List Vec3 :=
  [velSun, velMercury, velVenus, velEarth, velMars, velJupiter, velSaturn,
   velUranus, velNeptune]

/-- Position barycenter R_CM of the solar_system branch (lines 319-333). -/
noncomputable def solar_system_R_CM : Vec3 :=
  (1 / solar_system_m.sum) •
    (massSun • posSun + massMercury • posMercury + massVenus • posVenus +
      massEarth • posEarth + massMars • posMars + massJupiter • posJupiter +
      massSaturn • posSaturn + massUranus • posUranus +
      massNeptune • posNeptune)

/-- Velocity barycenter V_CM of the solar_system branch (lines 334-348). -/
noncomputable def solar_system_V_CM : Vec3 :=
  (1 / solar_system_m.sum) •
    (massSun • velSun + massMercury • velMercury + massVenus • velVenus +
      massEarth • velEarth + massMars • velMars + massJupiter • velJupiter +
      massSaturn • velSaturn + massUranus • velUranus +
      massNeptune • velNeptune)

/-- Positions of the solar_system preset after barycenter subtraction
(lines 350-371). -/
noncomputable def solar_system_x : List Vec3 :=
  [posSun - solar_system_R_CM, posMercury - solar_system_R_CM,
   posVenus - solar_system_R_CM, posEarth - solar_system_R_CM,
   posMars - solar_system_R_CM, posJupiter - solar_system_R_CM,
   posSaturn - solar_system_R_CM, posUranus - solar_system_R_CM,
   posNeptune - solar_system_R_CM]

/-- Velocities of the solar_system preset after barycenter subtraction. -/
noncomputable def solar_system_v : List Vec3 :=
  [velSun - solar_system_V_CM, velMercury - solar_system_V_CM,
   velVenus - solar_system_V_CM, velEarth - solar_system_V_CM,
   velMars - solar_system_V_CM, velJupiter - solar_system_V_CM,
   velSaturn - solar_system_V_CM, velUranus - solar_system_V_CM,
   velNeptune - solar_system_V_CM]

/-- Masses of the solar_system_plus preset (lines 374-390). -/
noncomputable def solar_system_plus_m : List ℝ :=
  [massSun, massMercury, massVenus, massEarth, massMars, massJupiter,
   massSaturn, massUranus, massNeptune, massPluto, massCeres, massVesta]

/-- Raw DE440 positions composed by the solar_system_plus branch. -/
noncomputable def solar_system_plus_pos : List Vec3 :=
  [posSun, posMercury, posVenus, posEarth, posMars, posJupiter, posSaturn,
   posUranus, posNeptune, posPluto, posCeres, posVesta]

/-- Raw DE440 velocities composed by the solar_system_plus branch. -/
noncomputable def solar_system_plus_vel : List Vec3 :=
  [velSun, velMercury, velVenus, velEarth, velMars, velJupiter, velSaturn,
   velUranus, velNeptune, velPluto, velCeres, velVesta]

/-- Position barycenter R_CM of the solar_system_plus branch (lines 392-409). -/
noncomputable def solar_system_plus_R_CM : Vec3 :=
  (1 / solar_system_plus_m.sum) •
    (massSun • posSun + massMercury • posMercury + massVenus • posVenus +
      massEarth • posEarth + massMars • posMars + massJupiter • posJupiter +
      massSaturn • posSaturn + massUranus • posUranus +
      massNeptune • posNeptune + massPluto • posPluto +
      massCeres • posCeres + massVesta • posVesta)

/-- Velocity barycenter V_CM of the solar_system_plus branch (lines 411-428). -/
noncomputable def solar_system_plus_V_CM : Vec3 :=
  (1 / solar_system_plus_m.sum) •
    (massSun • velSun + massMercury • velMercury + massVenus • velVenus +
      massEarth • velEarth + massMars • velMars + massJupiter • velJupiter +
      massSaturn • velSaturn + massUranus • velUranus +
      massNeptune • velNeptune + massPluto • velPluto +
      massCeres • velCeres + massVesta • velVesta)

/-- Positions of the solar_system_plus preset after barycenter subtraction
(lines 430-458). -/
noncomputable def solar_system_plus_x : List Vec3 :=
  [posSun - solar_system_plus_R_CM, posMercury - solar_system_plus_R_CM,
   posVenus - solar_system_plus_R_CM, posEarth - solar_system_plus_R_CM,
   posMars - solar_system_plus_R_CM, posJupiter - solar_system_plus_R_CM,
   posSaturn - solar_system_plus_R_CM, posUranus - solar_system_plus_R_CM,
   posNeptune - solar_system_plus_R_CM, posPluto - solar_system_plus_R_CM,
   posCeres - solar_system_plus_R_CM, posVesta - solar_system_plus_R_CM]

/-- Velocities of the solar_system_plus preset after barycenter
subtraction. -/
noncomputable def solar_system_plus_v : List Vec3 :=
  [velSun - solar_system_plus_V_CM, velMercury - solar_system_plus_V_CM,
   velVenus - solar_system_plus_V_CM, velEarth - solar_system_plus_V_CM,
   velMars - solar_system_plus_V_CM, velJupiter - solar_system_plus_V_CM,
   velSaturn - solar_system_plus_V_CM, velUranus - solar_system_plus_V_CM,
   velNeptune - solar_system_plus_V_CM, velPluto - solar_system_plus_V_CM,
   velCeres - solar_system_plus_V_CM, velVesta - solar_system_plus_V_CM]

/- ----------------------------------------------------------------
Trim operation (claim C8).
gravity_sim/__main__.py lines 597-665 and gravity_plot/__main__.py
lines 614-718 contain the same trim_data implementation; embedded once over
exact rationals.
---------------------------------------------------------------- -/

/-- The parallel trajectory buffers trimmed by trim_data. -/
structure SolBuf where
  sol_time : List ℚ
  sol_dt : List ℚ
  sol_state : List (List ℚ)
  energy : List ℚ

/-- Fill loop of trim_data: for i in range(data_size), when i % divide_factor
is 0 copy entry i of every buffer into slot j and advance j. -/
def trimLoop (cf : Bool) (b : SolBuf) (df : ℕ) :
    List ℕ → ℕ × SolBuf → ℕ × SolBuf
  | [], acc => acc
  | i :: is, (j, tb) =>
    if i % df = 0 then
      trimLoop cf b df is (j + 1,
        { sol_time := tb.sol_time.set j (b.sol_time.getD i 0)
          sol_dt := tb.sol_dt.set j (b.sol_dt.getD i 0)
          sol_state := tb.sol_state.set j (b.sol_state.getD i [])
          energy := if cf then tb.energy.set j (b.energy.getD i 0)
            else tb.energy })
    else trimLoop cf b df is (j, tb)

/-- Single-buffer view of the trim fill loop: trimLoop acts as this loop on
each of the four parallel buffers (used to state its characterization once). -/
def fillLoop {α : Type} (src : List α) (d : α) (df : ℕ) :
    List ℕ → ℕ → List α → List α
  | [], _, dst => dst
  | i :: is, j, dst =>
    if i % df = 0 then fillLoop src d df is (j + 1) (dst.set j (src.getD i d))
    else fillLoop src d df is j dst

/-- Number of multiples of df below i (the value of the loop counter j after
processing indices 0..i-1). -/
def cntMul (df i : ℕ) : ℕ :=
  ((List.range i).filter (fun t => t % df = 0)).length

/-- Embedding of trim_data (gravity_sim/__main__.py lines 597-665): compute
divide_factor = ceil(data_size / desired) and trim_size = floor(data_size /
divide_factor) + 1, allocate zero buffers of length trim_size, keep every
divide_factor-th sample, then force the last entry when the last trimmed time
differs from the last original time.  The energy buffer participates exactly
when computed_energy (cf) is true. -/
def trim_data (cf : Bool) (nobj S desired : ℕ) (b : SolBuf) : SolBuf :=
  let divide_factor := Nat.ceil ((S : ℚ) / (desired : ℚ))
  let trim_size := S / divide_factor + 1
  let init : SolBuf :=
    { sol_time := List.replicate trim_size 0
      sol_dt := List.replicate trim_size 0
      sol_state := List.replicate trim_size (List.replicate (nobj * 3 * 2) 0)
      energy := if cf then List.replicate trim_size 0 else b.energy }
  let tb := (trimLoop cf b divide_factor (List.range S) (0, init)).2
  if tb.sol_time.getD (trim_size - 1) 0 ≠ b.sol_time.getD (S - 1) 0 then
    { sol_time := tb.sol_time.set (trim_size - 1) (b.sol_time.getD (S - 1) 0)
      sol_dt := tb.sol_dt.set (trim_size - 1) (b.sol_dt.getD (S - 1) 0)
      sol_state :=
        tb.sol_state.set (trim_size - 1) (b.sol_state.getD (S - 1) [])
      energy := if cf then tb.energy.set (trim_size - 1) (b.energy.getD (S - 1) 0)
        else tb.energy }
  else tb

section
open Classical

/- ----------------------------------------------------------------
Heap-instrumented embedding of rk_embedded (claim C9).
Each numpy array lives in an explicit heap; allocations (np.zeros, np.copy,
arithmetic producing new arrays) append to the heap, and the in-place
writes of the source (vk[stage] = ..., temp_v += ..., delta *= dt) update
heap cells.  The values written are those of the functional embedding above.
---------------------------------------------------------------- -/

/-- An (n,3) numpy array as a value. -/
abbrev Mat := ℕ → Vec3

/-- Heap objects: 1-D arrays (masses), (n,3) arrays, and (stages,n,3)
stage arrays. -/
inductive HObj
  | arr : (ℕ → ℝ) → HObj
  | mat : Mat → HObj
  | cube : (ℕ → Mat) → HObj

/-- A heap is a list of allocated numpy arrays; references are indices. -/
abbrev Heap := List HObj

/-- Read a 1-D array from the heap. -/
def readArr (h : Heap) (r : ℕ) : ℕ → ℝ :=
  match h.getD r (HObj.arr fun _ => 0) with
  | HObj.arr f => f
  | _ => fun _ => 0

/-- Read an (n,3) array from the heap. -/
def readMat (h : Heap) (r : ℕ) : Mat :=
  match h.getD r (HObj.mat fun _ => 0) with
  | HObj.mat f => f
  | _ => fun _ => 0

/-- Read a (stages,n,3) array from the heap. -/
def readCube (h : Heap) (r : ℕ) : ℕ → Mat :=
  match h.getD r (HObj.cube fun _ _ => 0) with
  | HObj.cube f => f
  | _ => fun _ _ => 0

/-- In-place write of a whole array (numpy slice assignment or +=). -/
def hwrite (h : Heap) (r : ℕ) (o : HObj) : Heap := h.set r o

/-- Allocation of a fresh array (np.zeros, np.copy, or an arithmetic
expression producing a new array); returns the new heap and reference. -/
def halloc (h : Heap) (o : HObj) : Heap × ℕ := (h ++ [o], h.length)

/-- In-place write vk[stage] = value into a stage cube. -/
def writeCube (h : Heap) (r s : ℕ) (mt : Mat) : Heap :=
  hwrite h r (HObj.cube fun q => if q = s then mt else readCube h r q)

/-- Inner accumulation loop of the stage computation (rk_embedded lines
258-260): temp_v += coeff[stage-1][j] * vk[j] and likewise for temp_x,
as in-place writes to the freshly allocated temp arrays. -/
noncomputable def rkH_jloop (coeff : List (List ℝ)) (rvk rxk rtv rtx s : ℕ) :
    List ℕ → Heap → Heap
  | [], h => h
  | j :: js, h =>
    let h1 := hwrite h rtv (HObj.mat fun i =>
      readMat h rtv i + cIdx coeff (s - 1) j • readCube h rvk j i)
    let h2 := hwrite h1 rtx (HObj.mat fun i =>
      readMat h1 rtx i + cIdx coeff (s - 1) j • readCube h1 rxk j i)
    rkH_jloop coeff rvk rxk rtv rtx s js h2

/-- Stage loop of rk_embedded (lines 255-262): per stage allocate the two
temp arrays, accumulate, then write vk[stage] and xk[stage]. -/
noncomputable def rkH_stage_loop (n rm : ℕ) (G dt : ℝ)
    (coeff : List (List ℝ)) (rvk rxk rx rv : ℕ) : List ℕ → Heap → Heap
  | [], h => h
  | s :: ss, h =>
    let al1 := halloc h (HObj.mat fun _ => 0)
    let al2 := halloc al1.1 (HObj.mat fun _ => 0)
    let h3 := rkH_jloop coeff rvk rxk al1.2 al2.2 s (List.range s) al2.1
    let h4 := writeCube h3 rvk s
      (acceleration n (fun i => readMat h3 rx i + dt • readMat h3 al2.2 i)
        (readArr h3 rm) G)
    let h5 := writeCube h4 rxk s
      (fun i => readMat h4 rv i + dt • readMat h4 al1.2 i)
    rkH_stage_loop n rm G dt coeff rvk rxk rx rv ss h5

/-- Accumulation loop for x_1, v_1 and the error deltas (lines 269-277):
four in-place += writes per stage into freshly allocated arrays. -/
noncomputable def rkH_sumloop (weights weights_test : List ℝ)
    (rvk rxk rtv rtx rdx rdv : ℕ) : List ℕ → Heap → Heap
  | [], h => h
  | s :: ss, h =>
    let h1 := hwrite h rtv (HObj.mat fun i =>
      readMat h rtv i + weights.getD s 0 • readCube h rvk s i)
    let h2 := hwrite h1 rtx (HObj.mat fun i =>
      readMat h1 rtx i + weights.getD s 0 • readCube h1 rxk s i)
    let h3 := hwrite h2 rdv (HObj.mat fun i =>
      readMat h2 rdv i +
        (weights.getD s 0 - weights_test.getD s 0) • readCube h2 rvk s i)
    let h4 := hwrite h3 rdx (HObj.mat fun i =>
      readMat h3 rdx i +
        (weights.getD s 0 - weights_test.getD s 0) • readCube h3 rxk s i)
    rkH_sumloop weights weights_test rvk rxk rtv rtx rdx rdv ss h4

/-- One iteration of the rk_embedded attempt loop on the heap (lines
251-315).  Returns the references bound to the local names x and v after the
iteration, the updated t and dt, and the heap. -/
noncomputable def rkH_body (n rm : ℕ) (G ets : ℝ) (power power_test : ℕ)
    (coeff : List (List ℝ)) (weights weights_test : List ℝ)
    (a_tol r_tol : ℝ) (rvk rxk rx rv : ℕ) (t dt : ℝ) (h : Heap) :
    (ℕ × ℕ × ℝ) × ℝ × Heap :=
  let h1 := writeCube h rvk 0 (acceleration n (readMat h rx) (readArr h rm) G)
  let h2 := writeCube h1 rxk 0 (readMat h1 rv)
  let h3 := rkH_stage_loop n rm G dt coeff rvk rxk rx rv
    (List.range' 1 (weights.length - 1)) h2
  let al1 := halloc h3 (HObj.mat fun _ => 0)
  let al2 := halloc al1.1 (HObj.mat fun _ => 0)
  let al3 := halloc al2.1 (HObj.mat fun _ => 0)
  let al4 := halloc al3.1 (HObj.mat fun _ => 0)
  let h8 := rkH_sumloop weights weights_test rvk rxk al1.2 al2.2 al3.2 al4.2
    (List.range weights.length) al4.1
  let al5 := halloc h8 (HObj.mat fun i => readMat h8 rv i + dt • readMat h8 al1.2 i)
  let al6 := halloc al5.1
    (HObj.mat fun i => readMat al5.1 rx i + dt • readMat al5.1 al2.2 i)
  let h11 := hwrite al6.1 al4.2 (HObj.mat fun i => dt • readMat al6.1 al4.2 i)
  let h12 := hwrite h11 al3.2 (HObj.mat fun i => dt • readMat h11 al3.2 i)
  let err := Real.sqrt
    ((sqRatioSum n (readMat h12 al3.2)
        (fun i => tolScaleMax a_tol r_tol (readMat h12 rx i)
          (readMat h12 al6.2 i)) +
      sqRatioSum n (readMat h12 al4.2)
        (fun i => tolScaleMax a_tol r_tol (readMat h12 rv i)
          (readMat h12 al5.2 i))) / (n * 3 * 2))
  ((if err ≤ 1 ∨ dt = ets * 1e-12 then (al6.2, al5.2, t + dt)
    else (rx, rv, t)),
   rk_new_dt dt err ets (min power power_test), h12)

/-- The bounded attempt loop of rk_embedded on the heap. -/
noncomputable def rkH_loop (n rm : ℕ) (G ets : ℝ) (power power_test : ℕ)
    (coeff : List (List ℝ)) (weights weights_test : List ℝ)
    (a_tol r_tol simulation_time : ℝ) (min_iteration : ℕ) (rvk rxk : ℕ) :
    ℕ → ℕ → ℕ → ℕ → ℝ → ℝ → Heap → (ℕ × ℕ × ℝ) × ℝ × Heap
  | 0, _, rx, rv, t, dt, h => ((rx, rv, t), dt, h)
  | fuel + 1, i, rx, rv, t, dt, h =>
    let r := rkH_body n rm G ets power power_test coeff weights weights_test
      a_tol r_tol rvk rxk rx rv t dt h
    if min_iteration ≤ i ∧ r.1.2.2 > simulation_time + ets * 1e-5 then r
    else rkH_loop n rm G ets power power_test coeff weights weights_test
      a_tol r_tol simulation_time min_iteration rvk rxk fuel (i + 1)
      r.1.1 r.1.2.1 r.1.2.2 r.2.1 r.2.2

/-- Heap-level embedding of rk_embedded (gravity_sim/simulator.py lines
216-321): the caller's arrays x, v, m live at references rx, rv, rm of the
incoming heap; vk and xk are allocated once, then the attempt loop runs.
Returns the references of the arrays bound to x and v at return, the final t
and actual_dt, and the final heap. -/
noncomputable def rk_embeddedH (n rx rv rm : ℕ)
    (G ets simulation_time actual_dt : ℝ) (power power_test : ℕ)
    (coeff : List (List ℝ)) (weights weights_test : List ℝ)
    (max_iteration min_iteration : ℕ) (a_tol r_tol : ℝ) (h : Heap) :
    (ℕ × ℕ × ℝ) × ℝ × Heap :=
  let al1 := halloc h (HObj.cube fun _ _ => 0)
  let al2 := halloc al1.1 (HObj.cube fun _ _ => 0)
  rkH_loop n rm G ets power power_test coeff weights weights_test a_tol r_tol
    simulation_time min_iteration al1.2 al2.2 max_iteration 0 rx rv
    simulation_time actual_dt al2.1

end

/-- Invariant for the energy accumulator: finite or negative infinity. -/
def FinOrNeg (E : FVal) : Prop :=
  E = FVal.neginf ∨ ∃ e, E = FVal.fin e

/- ================================================================
Theorems.
================================================================ -/

/-- C7 counterexample:or the gravitational constant of gravity_sim,
Grav_obj.G = 0.00029591220828559 does not have the decimal prefix
0.00029591220828411... that the claim asserts for every G in the program. -/
theorem gravObjG_counterexample : ¬ hasSpecGPrefix gravObjG := by
  simp only [hasSpecGPrefix, gravObjG, not_and, not_lt]
  intro h
  norm_num

/-- C7 (amended): Simulator.CONSTANT_G in gravity_plot (derived from the DE440
GM of the Sun times the unit conversion factor) and the G value printed to the
user both agree with 0.00029591220828411..., but Grav_obj.G in gravity_sim is
the different literal 0.00029591220828559, which does not. -/
theorem gravity_constants_amended :
    hasSpecGPrefix CONSTANT_G ∧ hasSpecGPrefix printedG ∧
    gravObjG = 0.00029591220828559 ∧ ¬ hasSpecGPrefix gravObjG := by
  refine ⟨⟨?_, ?_⟩, ⟨?_, ?_⟩, rfl, ?_⟩
  · simp only [CONSTANT_G, GM_SI_Sun, CONVERSION_FACTOR]
    norm_num
  · simp only [CONSTANT_G, GM_SI_Sun, CONVERSION_FACTOR]
    norm_num
  · simp only [printedG]
    exact le_rfl
  · simp only [printedG]
    norm_num
  · simp only [hasSpecGPrefix, gravObjG, not_and, not_lt]
    intro h
    norm_num

/-- C10: rk_embedded_butcher_tableaus raises ValueError (returns none) if and
only if the order is not one of 45, 54, 78, 65; for every order in that set it
returns a tableau tuple without raising. -/
theorem butcher_tableaus_order_iff (order : ℤ) :
    (rk_embedded_butcher_tableaus order).isSome ↔
      order = 45 ∨ order = 54 ∨ order = 78 ∨ order = 65 := by
  unfold rk_embedded_butcher_tableaus
  split_ifs with h1 h2 h3 h4 <;> simp_all

/-- C4: every one of the four embedded tableaux has advance weights and test
weights summing exactly to 1, and every coefficient row sums to the
corresponding commented node value, EXCEPT row index 11 of the RKF7(8)
coefficient matrix, which sums to 48/41 while its node is 1.  The claim (and
the row-sum consistency every Fehlberg tableau is constructed to satisfy) is
right and the transcribed coefficient row in the code is wrong. -/
theorem butcher_tableau_consistency :
    tableau45.weights.sum = 1 ∧ tableau45.weights_test.sum = 1 ∧
    tableau54.weights.sum = 1 ∧ tableau54.weights_test.sum = 1 ∧
    tableau65.weights.sum = 1 ∧ tableau65.weights_test.sum = 1 ∧
    tableau78.weights.sum = 1 ∧ tableau78.weights_test.sum = 1 ∧
    rowSums tableau45.coeff = nodes45 ∧
    rowSums tableau54.coeff = nodes54 ∧
    rowSums tableau65.coeff = nodes65 ∧
    rowSums tableau78.coeff = nodes78.set 11 (48 / 41) ∧
    nodes78.getD 11 0 = 1 ∧ (48 / 41 : ℚ) ≠ 1 := by
  simp only [tableau45, tableau54, tableau65, tableau78, nodes45, nodes54,
    nodes65, nodes78, rowSums, List.map_cons, List.map_nil, List.sum_cons,
    List.sum_nil, List.set, List.getD, List.cons.injEq, and_true,
    List.getElem?_cons_succ, List.getElem?_cons_zero]
  norm_num

/-- C3: with equal absolute and relative tolerances, the initial-step
estimator returns exactly 1e-3 * min(100*dt_0, dt_1) with dt_0 and dt_1 given
by the claim's formulas (dt_0 switching on min(d_0, d_1) < 1e-5). -/
theorem initial_time_step_matches_spec (n power : ℕ) (x v a : ℕ → Vec3)
    (m : ℕ → ℝ) (G a_tol r_tol : ℝ) (h : a_tol = r_tol) :
    rk_embedded_initial_time_step n power x v a m G a_tol r_tol =
      initial_time_step_spec n power x v a m G a_tol r_tol := by
  unfold rk_embedded_initial_time_step initial_time_step_spec
  simp only [min_lt_iff]
  rw [mul_comm]

/-- Witness for C3 at a concrete one-body input. -/
theorem initial_time_step_matches_spec_witness :
    (1e-9 : ℝ) = 1e-9 ∧
    rk_embedded_initial_time_step 1 4 (fun _ => 0) (fun _ => 0) (fun _ => 0)
        (fun _ => 1) 1 1e-9 1e-9 =
      initial_time_step_spec 1 4 (fun _ => 0) (fun _ => 0) (fun _ => 0)
        (fun _ => 1) 1 1e-9 1e-9 :=
  ⟨rfl, initial_time_step_matches_spec 1 4 (fun _ => 0) (fun _ => 0)
    (fun _ => 0) (fun _ => 1) 1 1e-9 1e-9 rfl⟩

/-- C1: in an embedded-RK attempt with nonzero step, the state advances
(t becomes t + dt, x becomes x_1, v becomes v_1) if and only if the error
estimate is at most 1 or the current step equals the floor
expected_time_scale * 1e-12; on rejection t, x and v are left unchanged. -/
theorem rk_embedded_accept_iff (n : ℕ) (m : ℕ → ℝ) (G ets : ℝ)
    (power power_test : ℕ) (coeff : List (List ℝ))
    (weights weights_test : List ℝ) (a_tol r_tol : ℝ)
    (t : ℝ) (x v : ℕ → Vec3) (dt : ℝ) (hdt : dt ≠ 0) :
    (((rk_embedded_body n m G ets power power_test coeff weights weights_test
        a_tol r_tol t x v dt).1 = t + dt ∧
      (rk_embedded_body n m G ets power power_test coeff weights weights_test
        a_tol r_tol t x v dt).2.1 = rk_x1 n x v m G dt coeff weights ∧
      (rk_embedded_body n m G ets power power_test coeff weights weights_test
        a_tol r_tol t x v dt).2.2.1 = rk_v1 n x v m G dt coeff weights) ↔
      (rk_error n x v m G dt coeff weights weights_test a_tol r_tol ≤ 1 ∨
        dt = ets * 1e-12)) ∧
    (¬(rk_error n x v m G dt coeff weights weights_test a_tol r_tol ≤ 1 ∨
        dt = ets * 1e-12) →
      (rk_embedded_body n m G ets power power_test coeff weights weights_test
        a_tol r_tol t x v dt).1 = t ∧
      (rk_embedded_body n m G ets power power_test coeff weights weights_test
        a_tol r_tol t x v dt).2.1 = x ∧
      (rk_embedded_body n m G ets power power_test coeff weights weights_test
        a_tol r_tol t x v dt).2.2.1 = v) := by
  by_cases hc : rk_error n x v m G dt coeff weights weights_test a_tol r_tol
      ≤ 1 ∨ dt = ets * 1e-12
  · have hbody : rk_embedded_body n m G ets power power_test coeff weights
        weights_test a_tol r_tol t x v dt =
        (t + dt, rk_x1 n x v m G dt coeff weights,
          rk_v1 n x v m G dt coeff weights,
          rk_new_dt dt (rk_error n x v m G dt coeff weights weights_test
            a_tol r_tol) ets (min power power_test)) := by
      simp only [rk_embedded_body, if_pos hc]
    rw [hbody]
    exact ⟨⟨fun _ => hc, fun _ => ⟨rfl, rfl, rfl⟩⟩, fun hn => absurd hc hn⟩
  · have hbody : rk_embedded_body n m G ets power power_test coeff weights
        weights_test a_tol r_tol t x v dt =
        (t, x, v,
          rk_new_dt dt (rk_error n x v m G dt coeff weights weights_test
            a_tol r_tol) ets (min power power_test)) := by
      simp only [rk_embedded_body, if_neg hc]
    rw [hbody]
    refine ⟨⟨?_, fun h => absurd h hc⟩, fun _ => ⟨rfl, rfl, rfl⟩⟩
    rintro ⟨h1, -, -⟩
    exact absurd (by linarith : dt = 0) hdt

/-- Witness for C1 at a concrete one-body, one-stage input with dt = 1. -/
theorem rk_embedded_accept_iff_witness :
    (1 : ℝ) ≠ 0 ∧
    ((((rk_embedded_body 1 (fun _ => 1) 1 1 4 5 [] [1] [1] 1e-9 1e-9 0
        (fun _ => 0) (fun _ => 0) 1).1 = 0 + 1 ∧
      (rk_embedded_body 1 (fun _ => 1) 1 1 4 5 [] [1] [1] 1e-9 1e-9 0
        (fun _ => 0) (fun _ => 0) 1).2.1 =
        rk_x1 1 (fun _ => 0) (fun _ => 0) (fun _ => 1) 1 1 [] [1] ∧
      (rk_embedded_body 1 (fun _ => 1) 1 1 4 5 [] [1] [1] 1e-9 1e-9 0
        (fun _ => 0) (fun _ => 0) 1).2.2.1 =
        rk_v1 1 (fun _ => 0) (fun _ => 0) (fun _ => 1) 1 1 [] [1]) ↔
      (rk_error 1 (fun _ => 0) (fun _ => 0) (fun _ => 1) 1 1 [] [1] [1]
        1e-9 1e-9 ≤ 1 ∨ (1 : ℝ) = 1 * 1e-12)) ∧
    (¬(rk_error 1 (fun _ => 0) (fun _ => 0) (fun _ => 1) 1 1 [] [1] [1]
        1e-9 1e-9 ≤ 1 ∨ (1 : ℝ) = 1 * 1e-12) →
      (rk_embedded_body 1 (fun _ => 1) 1 1 4 5 [] [1] [1] 1e-9 1e-9 0
        (fun _ => 0) (fun _ => 0) 1).1 = 0 ∧
      (rk_embedded_body 1 (fun _ => 1) 1 1 4 5 [] [1] [1] 1e-9 1e-9 0
        (fun _ => 0) (fun _ => 0) 1).2.1 = (fun _ => 0) ∧
      (rk_embedded_body 1 (fun _ => 1) 1 1 4 5 [] [1] [1] 1e-9 1e-9 0
        (fun _ => 0) (fun _ => 0) 1).2.2.1 = (fun _ => 0))) :=
  ⟨by norm_num, rk_embedded_accept_iff 1 (fun _ => 1) 1 1 4 5 [] [1] [1]
    1e-9 1e-9 0 (fun _ => 0) (fun _ => 0) 1 (by norm_num)⟩

/-- C2 counterexample: at h = 1, err = 0.38 * 10^65, expected_time_scale = 1
and min_power = 4, the source's step update yields the floor 1e-12 while the
claim's formula (maximum of the clamped value and the floor) yields 0.33: the
floor branch tests the UNCLAMPED proposal and can reduce the clamped step. -/
theorem rk_new_dt_floor_counterexample :
    rk_new_dt 1 (0.38 * 10 ^ 65) 1 4 ≠
      rk_new_dt_spec 1 (0.38 * 10 ^ 65) 1 4 := by
  have herr0 : (0.38 * 10 ^ 65 : ℝ) ≠ 0 := by norm_num
  have hxpow : ((0.38 * 10 ^ 65 : ℝ)) ^ ((1 : ℝ) / (1 + ((4 : ℕ) : ℝ))) =
      safety_fac 4 * 10 ^ 13 := by
    have h5 : ((1 : ℝ) / (1 + ((4 : ℕ) : ℝ))) = (((5 : ℕ) : ℝ))⁻¹ := by
      norm_num
    unfold safety_fac
    rw [h5, Real.mul_rpow (by norm_num) (by positivity)]
    congr 1
    have h10 : ((10 : ℝ) ^ 65) = ((10 : ℝ) ^ 13) ^ 5 := by
      rw [← pow_mul]
    rw [h10, Real.pow_rpow_inv_natCast (by positivity) (by norm_num)]
  have hsf : (0 : ℝ) < safety_fac 4 :=
    Real.rpow_pos_of_pos (by norm_num) _
  have hprop_val : rk_dt_proposal 1 (0.38 * 10 ^ 65) 4 = 1e-13 := by
    unfold rk_dt_proposal
    rw [if_neg herr0, hxpow]
    rw [one_mul, div_mul_eq_div_div, div_self (ne_of_gt hsf)]
    norm_num
  have hprop_spec_val : rk_dt_proposal_spec 1 (0.38 * 10 ^ 65) 4 = 1e-13 := by
    unfold rk_dt_proposal_spec
    rw [if_neg herr0, Real.rpow_neg (by norm_num), hxpow]
    rw [one_mul, mul_inv, ← mul_assoc, mul_inv_cancel₀ (ne_of_gt hsf),
      one_mul]
    norm_num
  have hLHS : rk_new_dt 1 (0.38 * 10 ^ 65) 1 4 = 1 * 1e-12 := by
    unfold rk_new_dt
    rw [if_pos]
    rw [hprop_val]
    norm_num
  have hRHS : rk_new_dt_spec 1 (0.38 * 10 ^ 65) 1 4 = 0.33 := by
    unfold rk_new_dt_spec
    rw [hprop_spec_val]
    rw [min_eq_right (by norm_num), max_eq_left (by norm_num),
      max_eq_left (by norm_num)]
    norm_num
  rw [hLHS, hRHS]
  norm_num

/-- C2 (amended): the new step is dt_new = h * safety_fac * err^(-1/(1+p_min))
(h when err = 0); when dt_new is below the floor expected_time_scale * 1e-12
the resulting step is exactly that floor (which may be SMALLER than the
clamped value), and otherwise it is the proposal clamped into
[0.33*h, 6.0*h]. -/
theorem rk_new_dt_amended (dt err ets : ℝ) (mp : ℕ) (hets : 0 < ets)
    (hdt : 0 ≤ dt) (herr : 0 ≤ err) :
    rk_new_dt dt err ets mp =
      (if rk_dt_proposal_spec dt err mp < ets * 1e-12 then ets * 1e-12
       else max (0.33 * dt) (min (6.0 * dt) (rk_dt_proposal_spec dt err mp)))
      := by
  have hprop : rk_dt_proposal dt err mp = rk_dt_proposal_spec dt err mp := by
    unfold rk_dt_proposal rk_dt_proposal_spec
    split_ifs with h
    · rfl
    · rw [Real.rpow_neg herr, div_eq_mul_inv]
  have hcond : rk_dt_proposal dt err mp / ets < 1e-12 ↔
      rk_dt_proposal dt err mp < ets * 1e-12 := by
    rw [div_lt_iff₀ hets, mul_comm]
  unfold rk_new_dt
  rw [← hprop]
  by_cases hflo : rk_dt_proposal dt err mp < ets * 1e-12
  · rw [if_pos (hcond.2 hflo), if_pos hflo]
  · rw [if_neg (fun hy => hflo (hcond.1 hy)), if_neg hflo]
    unfold rk_dt_clamped
    by_cases h6 : rk_dt_proposal dt err mp > 6.0 * dt
    · rw [if_pos h6, min_eq_left (le_of_lt h6), max_eq_right (by nlinarith)]
    · rw [if_neg h6, min_eq_right (not_lt.1 h6)]
      by_cases h3 : rk_dt_proposal dt err mp < 0.33 * dt
      · rw [if_pos h3, max_eq_left (le_of_lt h3)]
      · rw [if_neg h3, max_eq_right (not_lt.1 h3)]

/-- Witness for the amended C2 at h = 1, err = 0, ets = 1, min_power = 4. -/
theorem rk_new_dt_amended_witness :
    (0 : ℝ) < 1 ∧ (0 : ℝ) ≤ 1 ∧ (0 : ℝ) ≤ 0 ∧
    rk_new_dt 1 0 1 4 =
      (if rk_dt_proposal_spec 1 0 4 < 1 * 1e-12 then 1 * 1e-12
       else max (0.33 * 1) (min (6.0 * 1) (rk_dt_proposal_spec 1 0 4))) :=
  ⟨by norm_num, by norm_num, le_rfl,
    rk_new_dt_amended 1 0 1 4 (by norm_num) (by norm_num) le_rfl⟩

theorem weightedSum_map_sub (ml : List ℝ) (ps : List Vec3) (q : Vec3)
    (h : ml.length = ps.length) :
    weightedSum ml (ps.map fun p => p - q) =
      weightedSum ml ps - ml.sum • q := by
  induction ml generalizing ps with
  | nil => simp [weightedSum]
  | cons a ml ih =>
    cases ps with
    | nil => exact absurd h (by simp)
    | cons p ps =>
      have h' : ml.length = ps.length := by simpa using h
      have hrec := ih ps h'
      simp only [weightedSum, List.map_cons, List.zipWith_cons_cons,
        List.sum_cons] at hrec ⊢
      rw [hrec, smul_sub, add_smul]
      abel

theorem weightedSum_recenter (ml : List ℝ) (ps : List Vec3)
    (h : ml.length = ps.length) (hs : ml.sum ≠ 0) :
    weightedSum ml
      (ps.map fun p => p - (1 / ml.sum) • weightedSum ml ps) = 0 := by
  rw [weightedSum_map_sub ml ps _ h, smul_smul, mul_one_div, div_self hs,
    one_smul, sub_self]

theorem circ_x : weightedSum circular_binary_orbit_m circular_binary_orbit_x
    = 0 := by
  simp only [weightedSum, circular_binary_orbit_m, circular_binary_orbit_x,
    List.zipWith_cons_cons, List.zipWith_nil_right, List.sum_cons,
    List.sum_nil, add_zero, Prod.smul_mk, Prod.mk_add_mk, smul_eq_mul,
    Prod.mk_eq_zero]
  refine ⟨by ring, by ring, by ring⟩

theorem circ_v : weightedSum circular_binary_orbit_m circular_binary_orbit_v
    = 0 := by
  simp only [weightedSum, circular_binary_orbit_m, circular_binary_orbit_v,
    List.zipWith_cons_cons, List.zipWith_nil_right, List.sum_cons,
    List.sum_nil, add_zero, Prod.smul_mk, Prod.mk_add_mk, smul_eq_mul,
    Prod.mk_eq_zero]
  refine ⟨by ring, by ring, by ring⟩

theorem ecc_x : weightedSum eccentric_binary_orbit_m eccentric_binary_orbit_x
    = 0 := by
  simp only [weightedSum, eccentric_binary_orbit_m, eccentric_binary_orbit_x,
    List.zipWith_cons_cons, List.zipWith_nil_right, List.sum_cons,
    List.sum_nil, add_zero, Prod.smul_mk, Prod.mk_add_mk, smul_eq_mul,
    Prod.mk_eq_zero]
  refine ⟨by ring_nf, by ring, by ring⟩

theorem ecc_v : weightedSum eccentric_binary_orbit_m eccentric_binary_orbit_v
    = 0 := by
  simp only [weightedSum, eccentric_binary_orbit_m, eccentric_binary_orbit_v,
    List.zipWith_cons_cons, List.zipWith_nil_right, List.sum_cons,
    List.sum_nil, add_zero, Prod.smul_mk, Prod.mk_add_mk, smul_eq_mul,
    Prod.mk_eq_zero]
  refine ⟨by ring, by ring_nf, by ring⟩

theorem helix_x_zero : weightedSum helix_m helix_x = 0 := by
  simp only [weightedSum, helix_m, helix_x,
    List.zipWith_cons_cons, List.zipWith_nil_right, List.sum_cons,
    List.sum_nil, add_zero, Prod.smul_mk, Prod.mk_add_mk, smul_eq_mul,
    Prod.mk_eq_zero]
  refine ⟨by ring, by ring, by ring⟩

theorem hGne : plotG ≠ 0 := by
  unfold plotG plotConversionFactor
  norm_num

theorem fig8_x : weightedSum figure8_m figure8_x = 0 := by
  simp only [weightedSum, figure8_m, figure8_x,
    List.zipWith_cons_cons, List.zipWith_nil_right, List.sum_cons,
    List.sum_nil, add_zero, Prod.smul_mk, Prod.mk_add_mk, smul_eq_mul,
    Prod.mk_eq_zero]
  refine ⟨by ring_nf, by ring_nf, by ring⟩

theorem fig8_v : weightedSum figure8_m figure8_v = 0 := by
  simp only [weightedSum, figure8_m, figure8_v,
    List.zipWith_cons_cons, List.zipWith_nil_right, List.sum_cons,
    List.sum_nil, add_zero, Prod.smul_mk, Prod.mk_add_mk, smul_eq_mul,
    Prod.mk_eq_zero]
  refine ⟨by ring_nf, by ring_nf, by ring⟩

theorem pyth_x : weightedSum pyth3body_m pyth3body_x = 0 := by
  simp only [weightedSum, pyth3body_m, pyth3body_x,
    List.zipWith_cons_cons, List.zipWith_nil_right, List.sum_cons,
    List.sum_nil, add_zero, Prod.smul_mk, Prod.mk_add_mk, smul_eq_mul,
    Prod.mk_eq_zero]
  refine ⟨by ring_nf, by ring_nf, by ring⟩

theorem pyth_v : weightedSum pyth3body_m pyth3body_v = 0 := by
  simp only [weightedSum, pyth3body_m, pyth3body_v,
    List.zipWith_cons_cons, List.zipWith_nil_right, List.sum_cons,
    List.sum_nil, add_zero, Prod.smul_mk, Prod.mk_add_mk, smul_eq_mul,
    Prod.mk_eq_zero]
  refine ⟨by ring, by ring, by ring⟩

theorem sem_x : weightedSum sun_earth_moon_m sun_earth_moon_x = 0 := by
  have hsum : sun_earth_moon_m.sum ≠ 0 := by
    unfold sun_earth_moon_m massSun massEarth massMoon
    norm_num
  have hq : sun_earth_moon_R_CM =
      (1 / sun_earth_moon_m.sum) •
        weightedSum sun_earth_moon_m sun_earth_moon_pos := by
    unfold sun_earth_moon_R_CM weightedSum sun_earth_moon_m sun_earth_moon_pos
    simp [add_assoc]
  have hx : sun_earth_moon_x = sun_earth_moon_pos.map
      (fun p => p - (1 / sun_earth_moon_m.sum) •
        weightedSum sun_earth_moon_m sun_earth_moon_pos) := by
    rw [← hq]
    unfold sun_earth_moon_x sun_earth_moon_pos
    simp [List.map]
  rw [hx]
  exact weightedSum_recenter _ _
    (by simp [sun_earth_moon_m, sun_earth_moon_pos]) hsum

theorem sem_v : weightedSum sun_earth_moon_m sun_earth_moon_v = 0 := by
  have hsum : sun_earth_moon_m.sum ≠ 0 := by
    unfold sun_earth_moon_m massSun massEarth massMoon
    norm_num
  have hq : sun_earth_moon_V_CM =
      (1 / sun_earth_moon_m.sum) •
        weightedSum sun_earth_moon_m sun_earth_moon_vel := by
    unfold sun_earth_moon_V_CM weightedSum sun_earth_moon_m sun_earth_moon_vel
    simp [add_assoc]
  have hx : sun_earth_moon_v = sun_earth_moon_vel.map
      (fun p => p - (1 / sun_earth_moon_m.sum) •
        weightedSum sun_earth_moon_m sun_earth_moon_vel) := by
    rw [← hq]
    unfold sun_earth_moon_v sun_earth_moon_vel
    simp [List.map]
  rw [hx]
  exact weightedSum_recenter _ _
    (by simp [sun_earth_moon_m, sun_earth_moon_vel]) hsum

theorem ss_x : weightedSum solar_system_m solar_system_x = 0 := by
  have hsum : solar_system_m.sum ≠ 0 := by
    unfold solar_system_m massSun massMercury massVenus massEarth massMars
      massJupiter massSaturn massUranus massNeptune
    norm_num
  have hq : solar_system_R_CM =
      (1 / solar_system_m.sum) •
        weightedSum solar_system_m solar_system_pos := by
    unfold solar_system_R_CM weightedSum solar_system_m solar_system_pos
    simp [add_assoc]
  have hx : solar_system_x = solar_system_pos.map
      (fun p => p - (1 / solar_system_m.sum) •
        weightedSum solar_system_m solar_system_pos) := by
    rw [← hq]
    unfold solar_system_x solar_system_pos
    simp [List.map]
  rw [hx]
  exact weightedSum_recenter _ _
    (by simp [solar_system_m, solar_system_pos]) hsum

theorem ss_v : weightedSum solar_system_m solar_system_v = 0 := by
  have hsum : solar_system_m.sum ≠ 0 := by
    unfold solar_system_m massSun massMercury massVenus massEarth massMars
      massJupiter massSaturn massUranus massNeptune
    norm_num
  have hq : solar_system_V_CM =
      (1 / solar_system_m.sum) •
        weightedSum solar_system_m solar_system_vel := by
    unfold solar_system_V_CM weightedSum solar_system_m solar_system_vel
    simp [add_assoc]
  have hx : solar_system_v = solar_system_vel.map
      (fun p => p - (1 / solar_system_m.sum) •
        weightedSum solar_system_m solar_system_vel) := by
    rw [← hq]
    unfold solar_system_v solar_system_vel
    simp [List.map]
  rw [hx]
  exact weightedSum_recenter _ _
    (by simp [solar_system_m, solar_system_vel]) hsum

theorem ssp_x : weightedSum solar_system_plus_m solar_system_plus_x = 0 := by
  have hsum : solar_system_plus_m.sum ≠ 0 := by
    unfold solar_system_plus_m massSun massMercury massVenus massEarth
      massMars massJupiter massSaturn massUranus massNeptune massPluto
      massCeres massVesta
    norm_num
  have hq : solar_system_plus_R_CM =
      (1 / solar_system_plus_m.sum) •
        weightedSum solar_system_plus_m solar_system_plus_pos := by
    unfold solar_system_plus_R_CM weightedSum solar_system_plus_m
      solar_system_plus_pos
    simp [add_assoc]
  have hx : solar_system_plus_x = solar_system_plus_pos.map
      (fun p => p - (1 / solar_system_plus_m.sum) •
        weightedSum solar_system_plus_m solar_system_plus_pos) := by
    rw [← hq]
    unfold solar_system_plus_x solar_system_plus_pos
    simp [List.map]
  rw [hx]
  exact weightedSum_recenter _ _
    (by simp [solar_system_plus_m, solar_system_plus_pos]) hsum

theorem ssp_v : weightedSum solar_system_plus_m solar_system_plus_v = 0 := by
  have hsum : solar_system_plus_m.sum ≠ 0 := by
    unfold solar_system_plus_m massSun massMercury massVenus massEarth
      massMars massJupiter massSaturn massUranus massNeptune massPluto
      massCeres massVesta
    norm_num
  have hq : solar_system_plus_V_CM =
      (1 / solar_system_plus_m.sum) •
        weightedSum solar_system_plus_m solar_system_plus_vel := by
    unfold solar_system_plus_V_CM weightedSum solar_system_plus_m
      solar_system_plus_vel
    simp [add_assoc]
  have hx : solar_system_plus_v = solar_system_plus_vel.map
      (fun p => p - (1 / solar_system_plus_m.sum) •
        weightedSum solar_system_plus_m solar_system_plus_vel) := by
    rw [← hq]
    unfold solar_system_plus_v solar_system_plus_vel
    simp [List.map]
  rw [hx]
  exact weightedSum_recenter _ _
    (by simp [solar_system_plus_m, solar_system_plus_vel]) hsum

/-- C5 counterexample: the 3d_helix preset has total linear momentum
Σ mᵢ vᵢ = (0, 1.5/G, 0) ≠ 0 — every velocity carries a +0.5 y-component that
is never recentred — so the claim is false for this preset. -/
theorem helix_momentum_counterexample : weightedSum helix_m helix_v ≠ 0 := by
  intro h
  have hy := congrArg (fun w : Vec3 => w.2.1) h
  simp only [weightedSum, helix_m, helix_v,
    List.zipWith_cons_cons, List.zipWith_nil_right, List.sum_cons,
    List.sum_nil, add_zero, Prod.smul_mk, Prod.mk_add_mk, smul_eq_mul] at hy
  have hG : plotG ≠ 0 := hGne
  field_simp at hy
  norm_num at hy

/-- C5 (amended): every gravity_plot preset except 3d_helix has exact zero
mass-weighted position sum AND zero mass-weighted velocity sum; 3d_helix has
zero mass-weighted position sum only (its momentum is nonzero). -/
theorem preset_barycenter_amended :
    weightedSum circular_binary_orbit_m circular_binary_orbit_x = 0 ∧
    weightedSum circular_binary_orbit_m circular_binary_orbit_v = 0 ∧
    weightedSum eccentric_binary_orbit_m eccentric_binary_orbit_x = 0 ∧
    weightedSum eccentric_binary_orbit_m eccentric_binary_orbit_v = 0 ∧
    weightedSum helix_m helix_x = 0 ∧
    weightedSum sun_earth_moon_m sun_earth_moon_x = 0 ∧
    weightedSum sun_earth_moon_m sun_earth_moon_v = 0 ∧
    weightedSum figure8_m figure8_x = 0 ∧
    weightedSum figure8_m figure8_v = 0 ∧
    weightedSum pyth3body_m pyth3body_x = 0 ∧
    weightedSum pyth3body_m pyth3body_v = 0 ∧
    weightedSum solar_system_m solar_system_x = 0 ∧
    weightedSum solar_system_m solar_system_v = 0 ∧
    weightedSum solar_system_plus_m solar_system_plus_x = 0 ∧
    weightedSum solar_system_plus_m solar_system_plus_v = 0 :=
  ⟨circ_x, circ_v, ecc_x, ecc_v, helix_x_zero, sem_x, sem_v, fig8_x, fig8_v,
    pyth_x, pyth_v, ss_x, ss_v, ssp_x, ssp_v⟩

theorem vnorm_sub_self (a b : Vec3) (h : a = b) : vnorm (a - b) = 0 := by
  rw [h, sub_self]
  show Real.sqrt ((0 : Vec3).1 ^ 2 + (0 : Vec3).2.1 ^ 2 + (0 : Vec3).2.2 ^ 2)
    = 0
  norm_num

theorem total_energy_inner_none (G : ℝ) (m : ℕ → ℝ) (x : ℕ → Vec3)
    (j k : ℕ) (hjk : j < k) (hx : x j = x k) :
    ∀ (ks : List ℕ) (E : ℝ), k ∈ ks →
      total_energy_inner G m x j ks E = none := by
  intro ks
  induction ks with
  | nil => intro E hk; simp at hk
  | cons a ks ih =>
    intro E hk
    by_cases hja : j < a
    · by_cases hnz : vnorm (x j - x a) ≠ 0
      · rcases List.mem_cons.1 hk with rfl | hk2
        · exact absurd (vnorm_sub_self _ _ hx) hnz
        · simp only [total_energy_inner, if_pos hja, if_pos hnz]
          exact ih _ hk2
      · simp only [total_energy_inner, if_pos hja, if_neg hnz]
    · rcases List.mem_cons.1 hk with rfl | hk2
      · exact absurd hjk hja
      · simp only [total_energy_inner, if_neg hja]
        exact ih _ hk2

theorem total_energy_outer_none (n : ℕ) (G : ℝ) (m : ℕ → ℝ)
    (x v : ℕ → Vec3) (j : ℕ)
    (hinner : ∀ E, total_energy_inner G m x j (List.range n) E = none) :
    ∀ (js : List ℕ) (E : ℝ), j ∈ js →
      total_energy_outer n G m x v js E = none := by
  intro js
  induction js with
  | nil => intro E hj; simp at hj
  | cons a js ih =>
    intro E hj
    rcases List.mem_cons.1 hj with rfl | hj2
    · simp only [total_energy_outer, hinner]
    · simp only [total_energy_outer]
      cases hcase : total_energy_inner G m x a (List.range n)
          (E + 0.5 * m a * vnorm (v a) ^ 2) with
      | none => rfl
      | some E2 =>
        exact ih E2 hj2

theorem te_nan (n : ℕ) (x v : ℕ → Vec3) (m : ℕ → ℝ) (G : ℝ) (j k : ℕ)
    (hjk : j < k) (hkn : k < n) (hx : x j = x k) :
    total_energy n x v m G = FVal.nan := by
  unfold total_energy
  rw [total_energy_outer_none n G m x v j
    (fun E => total_energy_inner_none G m x j k hjk hx (List.range n) E
      (List.mem_range.2 hkn))
    (List.range n) 0 (List.mem_range.2 (lt_trans hjk hkn))]

theorem pe_step_inv (G : ℝ) (m : ℕ → ℝ) (row : ℕ → ℝ) (i j : ℕ)
    (hpos : 0 < G * m i * m j) (E : FVal) (hE : FinOrNeg E) :
    FinOrNeg (E.sub ((FVal.fin (G * m i * m j)).div
      (FVal.fin (vnorm (statePos row i - statePos row j))))) := by
  by_cases hd : vnorm (statePos row i - statePos row j) = 0
  · rw [hd]
    have hdiv : (FVal.fin (G * m i * m j)).div (FVal.fin 0) = FVal.inf := by
      simp [FVal.div, hpos]
    rw [hdiv]
    rcases hE with rfl | ⟨e, rfl⟩
    · exact Or.inl rfl
    · exact Or.inl rfl
  · have hdiv : (FVal.fin (G * m i * m j)).div
        (FVal.fin (vnorm (statePos row i - statePos row j))) =
        FVal.fin (G * m i * m j / vnorm (statePos row i - statePos row j))
        := by
      simp [FVal.div, hd]
    rw [hdiv]
    rcases hE with rfl | ⟨e, rfl⟩
    · exact Or.inl rfl
    · exact Or.inr ⟨_, rfl⟩

theorem pe_inv (G : ℝ) (m : ℕ → ℝ) (row : ℕ → ℝ) (i : ℕ) :
    ∀ (js : List ℕ) (E : FVal), (∀ j ∈ js, 0 < G * m i * m j) →
      FinOrNeg E → FinOrNeg (compute_energy_pe G m row i js E) := by
  intro js
  induction js with
  | nil => intro E _ hE; exact hE
  | cons a js ih =>
    intro E hpos hE
    simp only [compute_energy_pe]
    exact ih _ (fun j hj => hpos j (List.mem_cons_of_mem _ hj))
      (pe_step_inv G m row i a (hpos a (List.mem_cons_self _ _)) E hE)

theorem pe_neginf (G : ℝ) (m : ℕ → ℝ) (row : ℕ → ℝ) (i : ℕ) :
    ∀ (js : List ℕ) (E : FVal), (∀ j ∈ js, 0 < G * m i * m j) →
      E = FVal.neginf → compute_energy_pe G m row i js E = FVal.neginf := by
  intro js
  induction js with
  | nil => intro E _ hE; exact hE
  | cons a js ih =>
    intro E hpos hE
    simp only [compute_energy_pe]
    apply ih _ (fun j hj => hpos j (List.mem_cons_of_mem _ hj))
    rcases pe_step_inv G m row i a (hpos a (List.mem_cons_self _ _)) E
      (Or.inl hE) with h | ⟨e, h⟩
    · exact h
    · subst hE
      by_cases hd : vnorm (statePos row i - statePos row a) = 0
      · simp [FVal.div, FVal.sub, hd, hpos a (List.mem_cons_self _ _)]
          at h ⊢
      · simp [FVal.div, FVal.sub, hd] at h

theorem pe_zero_dist (G : ℝ) (m : ℕ → ℝ) (row : ℕ → ℝ) (i : ℕ) :
    ∀ (js : List ℕ) (E : FVal), (∀ j ∈ js, 0 < G * m i * m j) →
      FinOrNeg E →
      (∃ j ∈ js, vnorm (statePos row i - statePos row j) = 0) →
      compute_energy_pe G m row i js E = FVal.neginf := by
  intro js
  induction js with
  | nil => rintro E _ _ ⟨j, hj, -⟩; simp at hj
  | cons a js ih =>
    rintro E hpos hE ⟨j, hj, hdist⟩
    rcases List.mem_cons.1 hj with rfl | hj2
    · simp only [compute_energy_pe]
      apply pe_neginf G m row i js _
        (fun j hj => hpos j (List.mem_cons_of_mem _ hj))
      rw [hdist]
      have hdiv : (FVal.fin (G * m i * m j)).div (FVal.fin 0) = FVal.inf := by
        simp [FVal.div, hpos j hj]
      rw [hdiv]
      rcases hE with rfl | ⟨e, rfl⟩ <;> rfl
    · simp only [compute_energy_pe]
      exact ih _ (fun j hj => hpos j (List.mem_cons_of_mem _ hj))
        (pe_step_inv G m row i a (hpos a (List.mem_cons_self _ _)) E hE)
        ⟨j, hj2, hdist⟩

theorem add_fin_inv (E : FVal) (c : ℝ) (hE : FinOrNeg E) :
    FinOrNeg (E.add (FVal.fin c)) := by
  rcases hE with rfl | ⟨e, rfl⟩
  · exact Or.inl rfl
  · exact Or.inr ⟨_, rfl⟩

theorem outer_neginf (nobj : ℕ) (G : ℝ) (m : ℕ → ℝ) (row : ℕ → ℝ)
    (hG : 0 < G) (hm : ∀ l, l < nobj → 0 < m l) :
    ∀ (is : List ℕ) (E : FVal), (∀ a ∈ is, a < nobj) → E = FVal.neginf →
      compute_energy_outer nobj G m row is E = FVal.neginf := by
  intro is
  induction is with
  | nil => intro E _ hE; exact hE
  | cons a is ih =>
    intro E hlt hE
    subst hE
    simp only [compute_energy_outer]
    apply ih _ (fun b hb => hlt b (List.mem_cons_of_mem _ hb))
    apply pe_neginf
    · intro j hj
      have hj2 := (List.mem_range'_1).1 hj
      have hjn : j < nobj := by
        have han : a < nobj := hlt a (List.mem_cons_self _ _)
        omega
      have := hm a (hlt a (List.mem_cons_self _ _))
      have := hm j hjn
      positivity
    · rfl

theorem outer_reaches (nobj : ℕ) (G : ℝ) (m : ℕ → ℝ) (row : ℕ → ℝ)
    (hG : 0 < G) (hm : ∀ l, l < nobj → 0 < m l) :
    ∀ (is : List ℕ) (E : FVal), (∀ a ∈ is, a < nobj) → FinOrNeg E →
      (∃ i0 ∈ is, ∃ j0, i0 < j0 ∧ j0 < nobj ∧
        vnorm (statePos row i0 - statePos row j0) = 0) →
      compute_energy_outer nobj G m row is E = FVal.neginf := by
  intro is
  induction is with
  | nil => rintro E _ _ ⟨i0, hi0, -⟩; simp at hi0
  | cons a is ih =>
    rintro E hlt hE ⟨i0, hi0, j0, hij, hjn, hdist⟩
    have han : a < nobj := hlt a (List.mem_cons_self _ _)
    have hposj : ∀ j ∈ List.range' (a + 1) (nobj - (a + 1)),
        0 < G * m a * m j := by
      intro j hj
      have hj2 := (List.mem_range'_1).1 hj
      have hjn2 : j < nobj := by omega
      have := hm a han
      have := hm j hjn2
      positivity
    simp only [compute_energy_outer]
    rcases List.mem_cons.1 hi0 with rfl | hi2
    · apply outer_neginf nobj G m row hG hm _ _
        (fun b hb => hlt b (List.mem_cons_of_mem _ hb))
      apply pe_zero_dist G m row i0 _ _ hposj
        (add_fin_inv _ _ hE)
      exact ⟨j0, (List.mem_range'_1).2 ⟨hij, by omega⟩, hdist⟩
    · apply ih _ (fun b hb => hlt b (List.mem_cons_of_mem _ hb))
      · exact pe_inv G m row a _ _ hposj (add_fin_inv _ _ hE)
      · exact ⟨i0, hi2, j0, hij, hjn, hdist⟩

theorem ce_sample_neginf (nobj : ℕ) (row : ℕ → ℝ) (m : ℕ → ℝ) (G : ℝ)
    (i j : ℕ) (hG : 0 < G) (hm : ∀ l, l < nobj → 0 < m l) (hij : i < j)
    (hjn : j < nobj) (hx : statePos row i = statePos row j) :
    compute_energy_sample nobj row m G = FVal.neginf := by
  unfold compute_energy_sample
  exact outer_reaches nobj G m row hG hm (List.range nobj) (FVal.fin 0)
    (fun a ha => List.mem_range.1 ha) (Or.inr ⟨0, rfl⟩)
    ⟨i, List.mem_range.2 (lt_trans hij hjn), j, hij, hjn,
      vnorm_sub_self _ _ hx⟩

/-- C6 counterexample: a two-body gravity_plot sample with both bodies at the
origin (positive masses, positive G) makes compute_energy return negative
infinity, not NaN: the numpy potential term has no zero-distance check, so
the division yields +inf and the subtraction gives -inf. -/
theorem compute_energy_not_nan_counterexample :
    statePos (fun _ => (0 : ℝ)) 0 = statePos (fun _ => (0 : ℝ)) 1 ∧
    compute_energy_sample 2 (fun _ => (0 : ℝ)) (fun _ => 1) 1 ≠ FVal.nan := by
  refine ⟨rfl, ?_⟩
  rw [ce_sample_neginf 2 (fun _ => (0 : ℝ)) (fun _ => 1) 1 0 1 (by norm_num)
    (fun l _ => by norm_num) (by norm_num) (by norm_num) rfl]
  simp

/-- C6 (amended): when two distinct bodies coincide, gravity_sim's
total_energy returns NaN (its explicit zero-norm check), while gravity_plot's
compute_energy (numpy path, positive G and masses) returns negative infinity
for that sample, since it divides by the zero distance with no check. -/
theorem energy_zero_distance_amended :
    (∀ (n : ℕ) (x v : ℕ → Vec3) (m : ℕ → ℝ) (G : ℝ) (j k : ℕ),
      j < k → k < n → x j = x k → total_energy n x v m G = FVal.nan) ∧
    (∀ (nobj : ℕ) (row m : ℕ → ℝ) (G : ℝ) (i j : ℕ),
      0 < G → (∀ l, l < nobj → 0 < m l) → i < j → j < nobj →
      statePos row i = statePos row j →
      compute_energy_sample nobj row m G = FVal.neginf) :=
  ⟨fun n x v m G j k hjk hkn hx => te_nan n x v m G j k hjk hkn hx,
   fun nobj row m G i j hG hm hij hjn hx =>
     ce_sample_neginf nobj row m G i j hG hm hij hjn hx⟩

/-- Witness for the amended C6 on concrete two-body coincident systems. -/
theorem energy_zero_distance_amended_witness :
    total_energy 2 (fun _ => 0) (fun _ => 0) (fun _ => 1) 1 = FVal.nan ∧
    compute_energy_sample 2 (fun _ => (0 : ℝ)) (fun _ => 1) 1 =
      FVal.neginf :=
  ⟨energy_zero_distance_amended.1 2 (fun _ => 0) (fun _ => 0) (fun _ => 1) 1
      0 1 (by norm_num) (by norm_num) rfl,
   energy_zero_distance_amended.2 2 (fun _ => (0 : ℝ)) (fun _ => 1) 1 0 1
      (by norm_num) (fun l _ => by norm_num) (by norm_num) (by norm_num) rfl⟩

theorem take_set_of_le {α : Type} (l : List α) (r k : ℕ) (o : α)
    (hkr : k ≤ r) : (l.set r o).take k = l.take k := by
  induction l generalizing r k with
  | nil => simp
  | cons a l ih =>
    cases r with
    | zero =>
      have hk0 : k = 0 := Nat.le_zero.1 hkr
      subst hk0
      simp
    | succ r =>
      cases k with
      | zero => simp
      | succ k =>
        simp only [List.set, List.take]
        rw [ih r k (Nat.le_of_succ_le_succ hkr)]

theorem prefix_set (h0 h : Heap) (r : ℕ) (o : HObj) (hp : h0 <+: h)
    (hr : h0.length ≤ r) : h0 <+: h.set r o := by
  rw [List.prefix_iff_eq_take] at hp ⊢
  rw [take_set_of_le h r h0.length o hr]
  exact hp

theorem prefix_alloc (h0 h : Heap) (o : HObj) (hp : h0 <+: h) :
    h0 <+: h ++ [o] :=
  hp.trans (h.prefix_append [o])

theorem prefix_writeCube (h0 h : Heap) (r s : ℕ) (mt : Mat) (hp : h0 <+: h)
    (hr : h0.length ≤ r) : h0 <+: writeCube h r s mt :=
  prefix_set h0 h r _ hp hr

theorem prefix_hwrite (h0 h : Heap) (r : ℕ) (o : HObj) (hp : h0 <+: h)
    (hr : h0.length ≤ r) : h0 <+: hwrite h r o :=
  prefix_set h0 h r o hp hr

theorem jloop_frame (h0 : Heap) (coeff : List (List ℝ))
    (rvk rxk rtv rtx s : ℕ) (hrtv : h0.length ≤ rtv)
    (hrtx : h0.length ≤ rtx) :
    ∀ (js : List ℕ) (h : Heap), h0 <+: h →
      h0 <+: rkH_jloop coeff rvk rxk rtv rtx s js h := by
  intro js
  induction js with
  | nil => intro h hp; exact hp
  | cons j js ih =>
    intro h hp
    simp only [rkH_jloop]
    exact ih _ (prefix_set h0 _ rtx _ (prefix_set h0 _ rtv _ hp hrtv) hrtx)

theorem stage_frame (h0 : Heap) (n rm : ℕ) (G dt : ℝ)
    (coeff : List (List ℝ)) (rvk rxk rx rv : ℕ) (hrvk : h0.length ≤ rvk)
    (hrxk : h0.length ≤ rxk) :
    ∀ (ss : List ℕ) (h : Heap), h0 <+: h →
      h0 <+: rkH_stage_loop n rm G dt coeff rvk rxk rx rv ss h := by
  intro ss
  induction ss with
  | nil => intro h hp; exact hp
  | cons s ss ih =>
    intro h hp
    simp only [rkH_stage_loop, halloc]
    apply ih
    have hal2 : h0 <+: (h ++ [HObj.mat fun _ => 0]) ++
        [HObj.mat fun _ => 0] :=
      prefix_alloc h0 _ _ (prefix_alloc h0 _ _ hp)
    have hJ := jloop_frame h0 coeff rvk rxk h.length
      (h ++ [HObj.mat fun _ => 0]).length s hp.length_le
      (le_trans hp.length_le (by simp)) (List.range s) _ hal2
    exact prefix_writeCube h0 _ rxk s _
      (prefix_writeCube h0 _ rvk s _ hJ hrvk) hrxk

theorem sumloop_frame (h0 : Heap) (weights weights_test : List ℝ)
    (rvk rxk rtv rtx rdx rdv : ℕ) (h1 : h0.length ≤ rtv)
    (h2 : h0.length ≤ rtx) (h3 : h0.length ≤ rdx) (h4 : h0.length ≤ rdv) :
    ∀ (ss : List ℕ) (h : Heap), h0 <+: h →
      h0 <+: rkH_sumloop weights weights_test rvk rxk rtv rtx rdx rdv ss h
      := by
  intro ss
  induction ss with
  | nil => intro h hp; exact hp
  | cons s ss ih =>
    intro h hp
    simp only [rkH_sumloop]
    apply ih
    exact prefix_set h0 _ rdx _
      (prefix_set h0 _ rdv _
        (prefix_set h0 _ rtx _ (prefix_set h0 _ rtv _ hp h1) h2) h4) h3

theorem body_frame (h0 : Heap) (n rm : ℕ) (G ets : ℝ)
    (power power_test : ℕ) (coeff : List (List ℝ))
    (weights weights_test : List ℝ) (a_tol r_tol : ℝ) (rvk rxk rx rv : ℕ)
    (t dt : ℝ) (h : Heap) (hp : h0 <+: h) (hrvk : h0.length ≤ rvk)
    (hrxk : h0.length ≤ rxk) :
    h0 <+: (rkH_body n rm G ets power power_test coeff weights weights_test
      a_tol r_tol rvk rxk rx rv t dt h).2.2 := by
  unfold rkH_body
  simp only [halloc]
  have hw2 : h0 <+: writeCube (writeCube h rvk 0
      (acceleration n (readMat h rx) (readArr h rm) G)) rxk 0
      (readMat (writeCube h rvk 0
        (acceleration n (readMat h rx) (readArr h rm) G)) rv) :=
    prefix_writeCube h0 _ rxk _ _ (prefix_writeCube h0 _ rvk _ _ hp hrvk)
      hrxk
  have hst := stage_frame h0 n rm G dt coeff rvk rxk rx rv hrvk hrxk
    (List.range' 1 (weights.length - 1)) _ hw2
  have lapp : ∀ (X : Heap) (t : List HObj), h0 <+: X →
      h0.length ≤ (X ++ t).length := fun X t hpX =>
    le_trans hpX.length_le (by simp only [List.length_append]; omega)
  set X := rkH_stage_loop n rm G dt coeff rvk rxk rx rv
    (List.range' 1 (weights.length - 1))
    (writeCube (writeCube h rvk 0
      (acceleration n (readMat h rx) (readArr h rm) G)) rxk 0
      (readMat (writeCube h rvk 0
        (acceleration n (readMat h rx) (readArr h rm) G)) rv)) with hX
  have ha1 := prefix_alloc h0 _ (HObj.mat fun _ => 0) hst
  have ha2 := prefix_alloc h0 _ (HObj.mat fun _ => 0) ha1
  have ha3 := prefix_alloc h0 _ (HObj.mat fun _ => 0) ha2
  have hal4 := prefix_alloc h0 _ (HObj.mat fun _ => 0) ha3
  have hsum := sumloop_frame h0 weights weights_test rvk rxk
    X.length (X ++ [HObj.mat fun _ => 0]).length
    ((X ++ [HObj.mat fun _ => 0]) ++ [HObj.mat fun _ => 0]).length
    (((X ++ [HObj.mat fun _ => 0]) ++ [HObj.mat fun _ => 0]) ++
      [HObj.mat fun _ => 0]).length
    hst.length_le (lapp _ _ hst) (lapp _ _ ha1) (lapp _ _ ha2)
    (List.range weights.length) _ hal4
  apply prefix_hwrite h0 _ _ _
  · apply prefix_hwrite h0 _ _ _
    · exact prefix_alloc h0 _ _ (prefix_alloc h0 _ _ hsum)
    · exact ha3.length_le
  · exact ha2.length_le

theorem loop_frame (h0 : Heap) (n rm : ℕ) (G ets : ℝ)
    (power power_test : ℕ) (coeff : List (List ℝ))
    (weights weights_test : List ℝ)
    (a_tol r_tol simulation_time : ℝ) (min_iteration : ℕ) (rvk rxk : ℕ)
    (hrvk : h0.length ≤ rvk) (hrxk : h0.length ≤ rxk) :
    ∀ (fuel i rx rv : ℕ) (t dt : ℝ) (h : Heap), h0 <+: h →
      h0 <+: (rkH_loop n rm G ets power power_test coeff weights
        weights_test a_tol r_tol simulation_time min_iteration rvk rxk fuel
        i rx rv t dt h).2.2 := by
  intro fuel
  induction fuel with
  | zero => intro i rx rv t dt h hp; exact hp
  | succ fuel ih =>
    intro i rx rv t dt h hp
    simp only [rkH_loop]
    split
    · exact body_frame h0 n rm G ets power power_test coeff weights
        weights_test a_tol r_tol rvk rxk rx rv t dt h hp hrvk hrxk
    · exact ih _ _ _ _ _ _ (body_frame h0 n rm G ets power power_test coeff
        weights weights_test a_tol r_tol rvk rxk rx rv t dt h hp hrvk hrxk)

theorem read_pres (h0 h2 : Heap) (hp : h0 <+: h2) (r : ℕ)
    (hr : r < h0.length) (d : HObj) : h2.getD r d = h0.getD r d := by
  obtain ⟨t, rfl⟩ := hp
  exact List.getD_append h0 t d r hr

/-- C9: an entire rk_embedded run only allocates fresh arrays and writes to
them — the initial heap is a prefix of the final heap and the input position
matrix, velocity matrix and mass array read back unchanged afterwards, for
any number of iterations. -/
theorem rk_embedded_frame (n rx rv rm : ℕ) (G ets t0 dt0 : ℝ)
    (power power_test : ℕ) (coeff : List (List ℝ))
    (weights weights_test : List ℝ) (max_it min_it : ℕ)
    (a_tol r_tol : ℝ) (h : Heap) (hx : rx < h.length) (hv : rv < h.length)
    (hm : rm < h.length) :
    h <+: (rk_embeddedH n rx rv rm G ets t0 dt0 power power_test coeff
      weights weights_test max_it min_it a_tol r_tol h).2.2 ∧
    readMat (rk_embeddedH n rx rv rm G ets t0 dt0 power power_test coeff
      weights weights_test max_it min_it a_tol r_tol h).2.2 rx =
      readMat h rx ∧
    readMat (rk_embeddedH n rx rv rm G ets t0 dt0 power power_test coeff
      weights weights_test max_it min_it a_tol r_tol h).2.2 rv =
      readMat h rv ∧
    readArr (rk_embeddedH n rx rv rm G ets t0 dt0 power power_test coeff
      weights weights_test max_it min_it a_tol r_tol h).2.2 rm =
      readArr h rm := by
  have hpre : h <+: (rk_embeddedH n rx rv rm G ets t0 dt0 power power_test
      coeff weights weights_test max_it min_it a_tol r_tol h).2.2 := by
    unfold rk_embeddedH
    simp only [halloc]
    apply loop_frame h n rm G ets power power_test coeff weights
      weights_test a_tol r_tol t0 min_it h.length
      (h ++ [HObj.cube fun _ _ => 0]).length
      le_rfl (by simp only [List.length_append]; omega)
    exact prefix_alloc h _ _ (prefix_alloc h _ _ (List.prefix_refl h))
  refine ⟨hpre, ?_, ?_, ?_⟩
  · unfold readMat
    rw [read_pres h _ hpre rx hx]
  · unfold readMat
    rw [read_pres h _ hpre rv hv]
  · unfold readArr
    rw [read_pres h _ hpre rm hm]

/-- Witness for C9 on a concrete three-object heap. -/
theorem rk_embedded_frame_witness :
    (0 : ℕ) < ([HObj.mat fun _ => 0, HObj.mat fun _ => 0,
        HObj.arr fun _ => 1] : Heap).length ∧
    (1 : ℕ) < ([HObj.mat fun _ => 0, HObj.mat fun _ => 0,
        HObj.arr fun _ => 1] : Heap).length ∧
    (2 : ℕ) < ([HObj.mat fun _ => 0, HObj.mat fun _ => 0,
        HObj.arr fun _ => 1] : Heap).length ∧
    (([HObj.mat fun _ => 0, HObj.mat fun _ => 0,
        HObj.arr fun _ => 1] : Heap) <+:
      (rk_embeddedH 1 0 1 2 1 1 0 1 4 5 [] [1] [1] 1 0 1e-9 1e-9
        [HObj.mat fun _ => 0, HObj.mat fun _ => 0,
          HObj.arr fun _ => 1]).2.2 ∧
    readMat (rk_embeddedH 1 0 1 2 1 1 0 1 4 5 [] [1] [1] 1 0 1e-9 1e-9
        [HObj.mat fun _ => 0, HObj.mat fun _ => 0,
          HObj.arr fun _ => 1]).2.2 0 =
      readMat [HObj.mat fun _ => 0, HObj.mat fun _ => 0,
        HObj.arr fun _ => 1] 0 ∧
    readMat (rk_embeddedH 1 0 1 2 1 1 0 1 4 5 [] [1] [1] 1 0 1e-9 1e-9
        [HObj.mat fun _ => 0, HObj.mat fun _ => 0,
          HObj.arr fun _ => 1]).2.2 1 =
      readMat [HObj.mat fun _ => 0, HObj.mat fun _ => 0,
        HObj.arr fun _ => 1] 1 ∧
    readArr (rk_embeddedH 1 0 1 2 1 1 0 1 4 5 [] [1] [1] 1 0 1e-9 1e-9
        [HObj.mat fun _ => 0, HObj.mat fun _ => 0,
          HObj.arr fun _ => 1]).2.2 2 =
      readArr [HObj.mat fun _ => 0, HObj.mat fun _ => 0,
        HObj.arr fun _ => 1] 2) :=
  ⟨by simp, by simp, by simp,
    rk_embedded_frame 1 0 1 2 1 1 0 1 4 5 [] [1] [1] 1 0 1e-9 1e-9
      [HObj.mat fun _ => 0, HObj.mat fun _ => 0, HObj.arr fun _ => 1]
      (by simp) (by simp) (by simp)⟩

theorem cntMul_succ (df i : ℕ) :
    cntMul df (i + 1) = cntMul df i + (if i % df = 0 then 1 else 0) := by
  simp only [cntMul, List.range_succ, List.filter_append, List.length_append]
  split_ifs with h <;> simp [List.filter, h]

theorem cntMul_closed (df : ℕ) (hdf : 0 < df) (i : ℕ) :
    cntMul df i = (i + df - 1) / df := by
  induction i with
  | zero =>
    simp only [cntMul, List.range_zero, List.filter_nil, List.length_nil,
      Nat.zero_add]
    rw [Nat.div_eq_of_lt (by omega)]
  | succ i ih =>
    rw [cntMul_succ, ih]
    by_cases hmod : i % df = 0
    · simp only [if_pos hmod]
      obtain ⟨q, rfl⟩ := Nat.dvd_of_mod_eq_zero hmod
      have e1 : df * q + df - 1 = df * (q + 1) - 1 := by ring_nf
      have e2 : df * q + 1 + df - 1 = df * (q + 1) := by ring_nf; omega
      rw [e2, Nat.mul_div_cancel_left _ hdf]
      have e3 : df * q + df - 1 = df * q + (df - 1) := by omega
      rw [e3, Nat.mul_add_div hdf, Nat.div_eq_of_lt (by omega)]
    · simp only [if_neg hmod]
      have hr1 : 1 ≤ i % df := Nat.pos_of_ne_zero hmod
      have hrlt : i % df < df := Nat.mod_lt _ hdf
      have hi := (Nat.div_add_mod i df).symm
      rw [Nat.add_zero]
      have e1 : i + df - 1 = df * (i / df) + (i % df + df - 1) := by omega
      have e2 : i + 1 + df - 1 = df * (i / df) + (i % df + df) := by omega
      rw [e1, e2, Nat.mul_add_div hdf, Nat.mul_add_div hdf]
      have d1 : (i % df + df - 1) / df = 1 := by
        have e3 : i % df + df - 1 = (i % df - 1) + df := by omega
        rw [e3, Nat.add_div_right _ hdf, Nat.div_eq_of_lt (by omega)]
      have d2 : (i % df + df) / df = 1 := by
        rw [Nat.add_div_right _ hdf, Nat.div_eq_of_lt hrlt]
      rw [d1, d2]

theorem cntMul_dvd (df : ℕ) (hdf : 0 < df) (i : ℕ) (hdvd : df ∣ i) :
    cntMul df i = i / df := by
  rw [cntMul_closed df hdf]
  obtain ⟨q, rfl⟩ := hdvd
  have e3 : df * q + df - 1 = df * q + (df - 1) := by omega
  rw [e3, Nat.mul_add_div hdf, Nat.div_eq_of_lt (by omega : df - 1 < df),
    Nat.mul_div_cancel_left _ hdf]
  omega

theorem cntMul_mono (df : ℕ) (i1 i2 : ℕ) (h : i1 ≤ i2) :
    cntMul df i1 ≤ cntMul df i2 := by
  induction i2 with
  | zero => simp_all [Nat.le_zero.1 h]
  | succ i2 ih =>
    rcases Nat.lt_or_ge i1 (i2 + 1) with hlt | hge
    · have := ih (by omega)
      rw [cntMul_succ]
      split_ifs <;> omega
    · have : i1 = i2 + 1 := by omega
      subst this
      exact le_rfl

theorem getD_set_char {α : Type} (l : List α) (r q : ℕ) (a d : α) :
    (l.set r a).getD q d = if r = q ∧ r < l.length then a else l.getD q d := by
  rw [List.getD_eq_getElem?_getD, List.getElem?_set, List.getD_eq_getElem?_getD]
  by_cases hrq : r = q
  · subst hrq
    by_cases hrl : r < l.length
    · simp [hrl]
    · simp [hrl, List.getElem?_eq_none (by omega : l.length ≤ r)]
  · simp [hrq]

theorem fillLoop_spec {α : Type} (src : List α) (d : α) (df : ℕ)
    (hdf : 0 < df) :
    ∀ (k i j : ℕ) (dst : List α), j = cntMul df i →
      (fillLoop src d df (List.range' i k) j dst).length = dst.length ∧
      ∀ q, (fillLoop src d df (List.range' i k) j dst).getD q d =
        (if j ≤ q ∧ q < cntMul df (i + k) ∧ q < dst.length
         then src.getD (q * df) d else dst.getD q d) := by
  intro k
  induction k with
  | zero =>
    intro i j dst hj
    simp only [List.range', fillLoop]
    refine ⟨by trivial, fun q => ?_⟩
    rw [if_neg]
    rintro ⟨h1, h2, -⟩
    simp only [Nat.add_zero] at h2
    omega
  | succ k ih =>
    intro i j dst hj
    rw [List.range'_succ]
    simp only [fillLoop]
    by_cases hmod : i % df = 0
    · rw [if_pos hmod]
      have hcnt1 : cntMul df (i + 1) = j + 1 := by
        rw [cntMul_succ, if_pos hmod, hj]
      obtain ⟨hlen, hchar⟩ := ih (i + 1) (j + 1) (dst.set j (src.getD i d))
        hcnt1.symm
      rw [List.length_set] at hlen
      simp only [List.length_set] at hchar
      have hceq : cntMul df (i + 1 + k) = cntMul df (i + (k + 1)) := by
        congr 1
        omega
      have hjdf : j * df = i := by
        rw [hj, cntMul_dvd df hdf i (Nat.dvd_of_mod_eq_zero hmod)]
        exact Nat.div_mul_cancel (Nat.dvd_of_mod_eq_zero hmod)
      have hjlt : j < cntMul df (i + (k + 1)) := by
        have hm := cntMul_mono df (i + 1) (i + (k + 1)) (by omega)
        omega
      refine ⟨hlen, fun q => ?_⟩
      rw [hchar q, hceq]
      by_cases hq : q = j
      · subst hq
        rw [if_neg (by omega : ¬(q + 1 ≤ q ∧ q < cntMul df (i + (k + 1)) ∧
          q < dst.length)), getD_set_char]
        by_cases hqlen : q < dst.length
        · rw [if_pos (show q = q ∧ q < dst.length from ⟨rfl, hqlen⟩),
            if_pos (show q ≤ q ∧ q < cntMul df (i + (k + 1)) ∧ q < dst.length
              from ⟨le_rfl, hjlt, hqlen⟩), hjdf]
        · rw [if_neg (show ¬(q = q ∧ q < dst.length) from fun h => hqlen h.2),
            if_neg (show ¬(q ≤ q ∧ q < cntMul df (i + (k + 1)) ∧
              q < dst.length) from fun h => hqlen h.2.2)]
      · rw [getD_set_char,
          if_neg (show ¬(j = q ∧ j < dst.length) from fun h => hq h.1.symm)]
        by_cases hcond : j + 1 ≤ q ∧ q < cntMul df (i + (k + 1)) ∧
            q < dst.length
        · rw [if_pos hcond,
            if_pos (show j ≤ q ∧ q < cntMul df (i + (k + 1)) ∧ q < dst.length
              from ⟨by omega, hcond.2⟩)]
        · rw [if_neg hcond,
            if_neg (show ¬(j ≤ q ∧ q < cntMul df (i + (k + 1)) ∧
              q < dst.length) from fun h => hcond ⟨by omega, h.2⟩)]
    · rw [if_neg hmod]
      have hcnt1 : cntMul df (i + 1) = j := by
        rw [cntMul_succ, if_neg hmod, hj]
        omega
      obtain ⟨hlen, hchar⟩ := ih (i + 1) j dst hcnt1.symm
      have hceq : cntMul df (i + 1 + k) = cntMul df (i + (k + 1)) := by
        congr 1
        omega
      refine ⟨hlen, fun q => ?_⟩
      rw [hchar q, hceq]

theorem trimLoop_time (cf : Bool) (b : SolBuf) (df : ℕ) :
    ∀ (is : List ℕ) (j : ℕ) (tb : SolBuf),
      (trimLoop cf b df is (j, tb)).2.sol_time =
        fillLoop b.sol_time 0 df is j tb.sol_time := by
  intro is
  induction is with
  | nil => intro j tb; rfl
  | cons i is ih =>
    intro j tb
    simp only [trimLoop, fillLoop]
    by_cases hmod : i % df = 0
    · rw [if_pos hmod, if_pos hmod]
      exact ih (j + 1) _
    · rw [if_neg hmod, if_neg hmod]
      exact ih j tb

theorem trimLoop_dt (cf : Bool) (b : SolBuf) (df : ℕ) :
    ∀ (is : List ℕ) (j : ℕ) (tb : SolBuf),
      (trimLoop cf b df is (j, tb)).2.sol_dt =
        fillLoop b.sol_dt 0 df is j tb.sol_dt := by
  intro is
  induction is with
  | nil => intro j tb; rfl
  | cons i is ih =>
    intro j tb
    simp only [trimLoop, fillLoop]
    by_cases hmod : i % df = 0
    · rw [if_pos hmod, if_pos hmod]
      exact ih (j + 1) _
    · rw [if_neg hmod, if_neg hmod]
      exact ih j tb

theorem trimLoop_state (cf : Bool) (b : SolBuf) (df : ℕ) :
    ∀ (is : List ℕ) (j : ℕ) (tb : SolBuf),
      (trimLoop cf b df is (j, tb)).2.sol_state =
        fillLoop b.sol_state [] df is j tb.sol_state := by
  intro is
  induction is with
  | nil => intro j tb; rfl
  | cons i is ih =>
    intro j tb
    simp only [trimLoop, fillLoop]
    by_cases hmod : i % df = 0
    · rw [if_pos hmod, if_pos hmod]
      exact ih (j + 1) _
    · rw [if_neg hmod, if_neg hmod]
      exact ih j tb

theorem trimLoop_energy_true (b : SolBuf) (df : ℕ) :
    ∀ (is : List ℕ) (j : ℕ) (tb : SolBuf),
      (trimLoop true b df is (j, tb)).2.energy =
        fillLoop b.energy 0 df is j tb.energy := by
  intro is
  induction is with
  | nil => intro j tb; rfl
  | cons i is ih =>
    intro j tb
    simp only [trimLoop, fillLoop]
    by_cases hmod : i % df = 0
    · rw [if_pos hmod, if_pos hmod]
      exact ih (j + 1) _
    · rw [if_neg hmod, if_neg hmod]
      exact ih j tb

theorem trimLoop_energy_false (b : SolBuf) (df : ℕ) :
    ∀ (is : List ℕ) (j : ℕ) (tb : SolBuf),
      (trimLoop false b df is (j, tb)).2.energy = tb.energy := by
  intro is
  induction is with
  | nil => intro j tb; rfl
  | cons i is ih =>
    intro j tb
    simp only [trimLoop]
    by_cases hmod : i % df = 0
    · rw [if_pos hmod]
      exact ih (j + 1) _
    · rw [if_neg hmod]
      exact ih j tb

theorem getD_replicate_zero (n q : ℕ) :
    (List.replicate n (0 : ℚ)).getD q 0 = 0 := by
  rw [List.getD_eq_getElem?_getD, List.getElem?_replicate]
  split_ifs <;> rfl

theorem pairwise_getD_lt (l : List ℚ) (hmono : List.Pairwise (· < ·) l)
    (p1 p2 : ℕ) (h12 : p1 < p2) (h2 : p2 < l.length) :
    l.getD p1 0 < l.getD p2 0 := by
  rw [List.getD_eq_getElem _ _ (lt_trans h12 h2), List.getD_eq_getElem _ _ h2]
  exact List.pairwise_iff_getElem.1 hmono p1 p2 (lt_trans h12 h2) h2 h12

theorem cntMul_not_dvd (df : ℕ) (hdf : 0 < df) (S : ℕ)
    (hnd : ¬df ∣ S) : cntMul df S = S / df + 1 := by
  rw [cntMul_closed df hdf]
  have hr1 : 1 ≤ S % df := by
    rcases Nat.eq_zero_or_pos (S % df) with h | h
    · exact absurd (Nat.dvd_of_mod_eq_zero h) hnd
    · exact h
  have hrlt : S % df < df := Nat.mod_lt _ hdf
  have hS := (Nat.div_add_mod S df).symm
  have e1 : S + df - 1 = df * (S / df) + (S % df + df - 1) := by omega
  rw [e1, Nat.mul_add_div hdf]
  have d1 : (S % df + df - 1) / df = 1 := by
    have e3 : S % df + df - 1 = (S % df - 1) + df := by omega
    rw [e3, Nat.add_div_right _ hdf, Nat.div_eq_of_lt (by omega)]
  rw [d1]

theorem trim_field_time (cf : Bool) (nobj S desired : ℕ) (b : SolBuf)
    (df ts : ℕ) (hdfd : df = Nat.ceil ((S : ℚ) / (desired : ℚ)))
    (htsd : ts = S / df + 1) :
    (trim_data cf nobj S desired b).sol_time =
      (if (fillLoop b.sol_time 0 df (List.range S) 0
            (List.replicate ts 0)).getD (ts - 1) 0 ≠
          b.sol_time.getD (S - 1) 0
       then (fillLoop b.sol_time 0 df (List.range S) 0
          (List.replicate ts 0)).set (ts - 1) (b.sol_time.getD (S - 1) 0)
       else fillLoop b.sol_time 0 df (List.range S) 0
          (List.replicate ts 0)) := by
  subst hdfd
  subst htsd
  simp only [trim_data, apply_ite SolBuf.sol_time]
  rw [trimLoop_time]

theorem trim_field_dt (cf : Bool) (nobj S desired : ℕ) (b : SolBuf)
    (df ts : ℕ) (hdfd : df = Nat.ceil ((S : ℚ) / (desired : ℚ)))
    (htsd : ts = S / df + 1) :
    (trim_data cf nobj S desired b).sol_dt =
      (if (fillLoop b.sol_time 0 df (List.range S) 0
            (List.replicate ts 0)).getD (ts - 1) 0 ≠
          b.sol_time.getD (S - 1) 0
       then (fillLoop b.sol_dt 0 df (List.range S) 0
          (List.replicate ts 0)).set (ts - 1) (b.sol_dt.getD (S - 1) 0)
       else fillLoop b.sol_dt 0 df (List.range S) 0
          (List.replicate ts 0)) := by
  subst hdfd
  subst htsd
  simp only [trim_data, apply_ite SolBuf.sol_dt]
  rw [trimLoop_time, trimLoop_dt]

theorem trim_field_state (cf : Bool) (nobj S desired : ℕ) (b : SolBuf)
    (df ts : ℕ) (hdfd : df = Nat.ceil ((S : ℚ) / (desired : ℚ)))
    (htsd : ts = S / df + 1) :
    (trim_data cf nobj S desired b).sol_state =
      (if (fillLoop b.sol_time 0 df (List.range S) 0
            (List.replicate ts 0)).getD (ts - 1) 0 ≠
          b.sol_time.getD (S - 1) 0
       then (fillLoop b.sol_state [] df (List.range S) 0
          (List.replicate ts (List.replicate (nobj * 3 * 2) 0))).set (ts - 1)
          (b.sol_state.getD (S - 1) [])
       else fillLoop b.sol_state [] df (List.range S) 0
          (List.replicate ts (List.replicate (nobj * 3 * 2) 0))) := by
  subst hdfd
  subst htsd
  simp only [trim_data, apply_ite SolBuf.sol_state]
  rw [trimLoop_time, trimLoop_state]

theorem trim_field_energy (nobj S desired : ℕ) (b : SolBuf)
    (df ts : ℕ) (hdfd : df = Nat.ceil ((S : ℚ) / (desired : ℚ)))
    (htsd : ts = S / df + 1) :
    (trim_data true nobj S desired b).energy =
      (if (fillLoop b.sol_time 0 df (List.range S) 0
            (List.replicate ts 0)).getD (ts - 1) 0 ≠
          b.sol_time.getD (S - 1) 0
       then (fillLoop b.energy 0 df (List.range S) 0
          (List.replicate ts 0)).set (ts - 1) (b.energy.getD (S - 1) 0)
       else fillLoop b.energy 0 df (List.range S) 0
          (List.replicate ts 0)) := by
  subst hdfd
  subst htsd
  simp only [trim_data, apply_ite SolBuf.energy, if_true]
  rw [trimLoop_time, trimLoop_energy_true]

set_option maxHeartbeats 1000000 in
/-- C8: trim_data with data_size = S, desired trimmed size "desired" (with
1 < desired < S and strictly increasing solution times starting at a
nonnegative value) produces buffers of length trimmed_size =
floor(S / divide_factor) + 1 with divide_factor = ceil(S / desired); every
entry j < trimmed_size - 1 equals original entry j * divide_factor, the last
entry equals the last original entry (forced if the stride missed it), and
the energy buffer is trimmed the same way exactly when compute_energy was
on. -/
theorem trim_data_spec (cf : Bool) (nobj S desired : ℕ) (b : SolBuf)
    (df ts : ℕ) (hdfd : df = Nat.ceil ((S : ℚ) / (desired : ℚ)))
    (htsd : ts = S / df + 1)
    (hlt : b.sol_time.length = S) (hld : b.sol_dt.length = S)
    (hls : b.sol_state.length = S) (hle : b.energy.length = S)
    (hd1 : 1 < desired) (hdS : desired < S)
    (hmono : List.Pairwise (· < ·) b.sol_time)
    (hfirst : 0 ≤ b.sol_time.getD 0 0) :
    (trim_data cf nobj S desired b).sol_time.length = ts ∧
    (trim_data cf nobj S desired b).sol_dt.length = ts ∧
    (trim_data cf nobj S desired b).sol_state.length = ts ∧
    (cf = true → (trim_data cf nobj S desired b).energy.length = ts) ∧
    (∀ j, j < ts - 1 →
      (trim_data cf nobj S desired b).sol_time.getD j 0 =
        b.sol_time.getD (j * df) 0 ∧
      (trim_data cf nobj S desired b).sol_dt.getD j 0 =
        b.sol_dt.getD (j * df) 0 ∧
      (trim_data cf nobj S desired b).sol_state.getD j [] =
        b.sol_state.getD (j * df) [] ∧
      (cf = true → (trim_data cf nobj S desired b).energy.getD j 0 =
        b.energy.getD (j * df) 0)) ∧
    ((trim_data cf nobj S desired b).sol_time.getD (ts - 1) 0 =
        b.sol_time.getD (S - 1) 0 ∧
      (trim_data cf nobj S desired b).sol_dt.getD (ts - 1) 0 =
        b.sol_dt.getD (S - 1) 0 ∧
      (trim_data cf nobj S desired b).sol_state.getD (ts - 1) [] =
        b.sol_state.getD (S - 1) [] ∧
      (cf = true → (trim_data cf nobj S desired b).energy.getD (ts - 1) 0 =
        b.energy.getD (S - 1) 0)) := by
  have hS3 : 3 ≤ S := by omega
  have hdf : 0 < df := by
    rw [hdfd, Nat.ceil_pos]
    apply div_pos
    · exact_mod_cast Nat.lt_of_lt_of_le (by omega : 0 < 3) hS3
    · exact_mod_cast (by omega : 0 < desired)
  have h00 : (0 : ℕ) = cntMul df 0 := by simp [cntMul]
  obtain ⟨hlenT, hcharT⟩ := fillLoop_spec b.sol_time 0 df hdf S 0 0
    (List.replicate ts (0 : ℚ)) h00
  obtain ⟨hlenD, hcharD⟩ := fillLoop_spec b.sol_dt 0 df hdf S 0 0
    (List.replicate ts (0 : ℚ)) h00
  obtain ⟨hlenS, hcharS⟩ := fillLoop_spec b.sol_state [] df hdf S 0 0
    (List.replicate ts (List.replicate (nobj * 3 * 2) (0 : ℚ))) h00
  obtain ⟨hlenE, hcharE⟩ := fillLoop_spec b.energy 0 df hdf S 0 0
    (List.replicate ts (0 : ℚ)) h00
  simp only [Nat.zero_add, Nat.zero_le, true_and, List.length_replicate]
    at hlenT hcharT hlenD hcharD hlenS hcharS hlenE hcharE
  have hcnt_le : cntMul df S ≤ ts := by
    rw [cntMul_closed df hdf, htsd]
    have h1 : (S + df - 1) / df ≤ (S + df) / df :=
      Nat.div_le_div_right (by omega)
    rw [Nat.add_div_right _ hdf] at h1
    omega
  have hle2 : S / df ≤ cntMul df S := by
    rw [cntMul_closed df hdf]
    exact Nat.div_le_div_right (show S ≤ S + df - 1 by omega)
  have hts1 : ts - 1 = S / df := by rw [htsd, Nat.add_sub_cancel]
  have hlast_pos : 0 < b.sol_time.getD (S - 1) 0 :=
    lt_of_le_of_lt hfirst
      (pairwise_getD_lt _ hmono 0 (S - 1) (by omega) (by omega))
  rw [trim_field_time cf nobj S desired b df ts hdfd htsd,
    trim_field_dt cf nobj S desired b df ts hdfd htsd,
    trim_field_state cf nobj S desired b df ts hdfd htsd,
    List.range_eq_range']
  have hEN : ∀ hcf : cf = true, (trim_data cf nobj S desired b).energy =
      (if (fillLoop b.sol_time 0 df (List.range' 0 S) 0
            (List.replicate ts 0)).getD (ts - 1) 0 ≠
          b.sol_time.getD (S - 1) 0
       then (fillLoop b.energy 0 df (List.range' 0 S) 0
          (List.replicate ts 0)).set (ts - 1) (b.energy.getD (S - 1) 0)
       else fillLoop b.energy 0 df (List.range' 0 S) 0
          (List.replicate ts 0)) := by
    intro hcf
    subst hcf
    rw [trim_field_energy nobj S desired b df ts hdfd htsd,
      List.range_eq_range']
  by_cases hdvd : df ∣ S
  · have hcnt : cntMul df S = S / df := cntMul_dvd df hdf S hdvd
    have hslot : (fillLoop b.sol_time 0 df (List.range' 0 S) 0
        (List.replicate ts 0)).getD (ts - 1) 0 = 0 := by
      rw [hcharT (ts - 1), if_neg (by omega), getD_replicate_zero]
    have hCOND : (fillLoop b.sol_time 0 df (List.range' 0 S) 0
        (List.replicate ts 0)).getD (ts - 1) 0 ≠
        b.sol_time.getD (S - 1) 0 := by
      rw [hslot]
      exact ne_of_lt hlast_pos
    rw [if_pos hCOND, if_pos hCOND, if_pos hCOND]
    refine ⟨by simp [List.length_set, hlenT], by simp [List.length_set, hlenD],
      by simp [List.length_set, hlenS], ?_, ?_, ?_⟩
    · intro hcf
      rw [hEN hcf, if_pos hCOND]
      simp [List.length_set, hlenE]
    · intro j hj
      have hne : ¬(ts - 1 = j ∧ ts - 1 < ts) := fun h => by omega
      have hcond : j < cntMul df S ∧ j < ts := by omega
      refine ⟨?_, ?_, ?_, ?_⟩
      · rw [getD_set_char, hlenT, if_neg hne, hcharT j, if_pos hcond]
      · rw [getD_set_char, hlenD, if_neg hne, hcharD j, if_pos hcond]
      · rw [getD_set_char, hlenS, if_neg hne, hcharS j, if_pos hcond]
      · intro hcf
        rw [hEN hcf, if_pos hCOND, getD_set_char, hlenE, if_neg hne,
          hcharE j, if_pos hcond]
    · have hyes : ts - 1 = ts - 1 ∧ ts - 1 < ts := ⟨rfl, by omega⟩
      refine ⟨?_, ?_, ?_, ?_⟩
      · rw [getD_set_char, hlenT, if_pos hyes]
      · rw [getD_set_char, hlenD, if_pos hyes]
      · rw [getD_set_char, hlenS, if_pos hyes]
      · intro hcf
        rw [hEN hcf, if_pos hCOND, getD_set_char, hlenE, if_pos hyes]
  · have hcnt : cntMul df S = ts := by
      rw [cntMul_not_dvd df hdf S hdvd]
      omega
    have hslot : (fillLoop b.sol_time 0 df (List.range' 0 S) 0
        (List.replicate ts 0)).getD (ts - 1) 0 =
        b.sol_time.getD ((ts - 1) * df) 0 := by
      rw [hcharT (ts - 1), if_pos (by omega)]
    have hmul_le : (ts - 1) * df ≤ S - 1 := by
      have h1 : S / df * df ≤ S := Nat.div_mul_le_self S df
      have h2 : S / df * df ≠ S := by
        intro h
        apply hdvd
        apply Nat.dvd_of_mod_eq_zero
        have h4 := Nat.div_add_mod S df
        have h5 : df * (S / df) = S / df * df := Nat.mul_comm _ _
        omega
      have h3 : (ts - 1) * df = S / df * df := by rw [hts1]
      omega
    by_cases heq : (ts - 1) * df = S - 1
    · have hCOND : ¬((fillLoop b.sol_time 0 df (List.range' 0 S) 0
          (List.replicate ts 0)).getD (ts - 1) 0 ≠
          b.sol_time.getD (S - 1) 0) := by
        rw [hslot, heq]
        exact fun h => h rfl
      rw [if_neg hCOND, if_neg hCOND, if_neg hCOND]
      refine ⟨hlenT, hlenD, hlenS, ?_, ?_, ?_⟩
      · intro hcf
        rw [hEN hcf, if_neg hCOND]
        exact hlenE
      · intro j hj
        have hcond : j < cntMul df S ∧ j < ts := by omega
        refine ⟨?_, ?_, ?_, ?_⟩
        · rw [hcharT j, if_pos hcond]
        · rw [hcharD j, if_pos hcond]
        · rw [hcharS j, if_pos hcond]
        · intro hcf
          rw [hEN hcf, if_neg hCOND, hcharE j, if_pos hcond]
      · have hcond : ts - 1 < cntMul df S ∧ ts - 1 < ts := by omega
        refine ⟨?_, ?_, ?_, ?_⟩
        · rw [hcharT (ts - 1), if_pos hcond, heq]
        · rw [hcharD (ts - 1), if_pos hcond, heq]
        · rw [hcharS (ts - 1), if_pos hcond, heq]
        · intro hcf
          rw [hEN hcf, if_neg hCOND, hcharE (ts - 1), if_pos hcond, heq]
    · have hlt3 : (ts - 1) * df < S - 1 := by omega
      have hCOND : (fillLoop b.sol_time 0 df (List.range' 0 S) 0
          (List.replicate ts 0)).getD (ts - 1) 0 ≠
          b.sol_time.getD (S - 1) 0 := by
        rw [hslot]
        exact ne_of_lt (pairwise_getD_lt _ hmono _ _ hlt3 (by omega))
      rw [if_pos hCOND, if_pos hCOND, if_pos hCOND]
      refine ⟨by simp [List.length_set, hlenT],
        by simp [List.length_set, hlenD],
        by simp [List.length_set, hlenS], ?_, ?_, ?_⟩
      · intro hcf
        rw [hEN hcf, if_pos hCOND]
        simp [List.length_set, hlenE]
      · intro j hj
        have hne : ¬(ts - 1 = j ∧ ts - 1 < ts) := fun h => by omega
        have hcond : j < cntMul df S ∧ j < ts := by omega
        refine ⟨?_, ?_, ?_, ?_⟩
        · rw [getD_set_char, hlenT, if_neg hne, hcharT j, if_pos hcond]
        · rw [getD_set_char, hlenD, if_neg hne, hcharD j, if_pos hcond]
        · rw [getD_set_char, hlenS, if_neg hne, hcharS j, if_pos hcond]
        · intro hcf
          rw [hEN hcf, if_pos hCOND, getD_set_char, hlenE, if_neg hne,
            hcharE j, if_pos hcond]
      · have hyes : ts - 1 = ts - 1 ∧ ts - 1 < ts := ⟨rfl, by omega⟩
        refine ⟨?_, ?_, ?_, ?_⟩
        · rw [getD_set_char, hlenT, if_pos hyes]
        · rw [getD_set_char, hlenD, if_pos hyes]
        · rw [getD_set_char, hlenS, if_pos hyes]
        · intro hcf
          rw [hEN hcf, if_pos hCOND, getD_set_char, hlenE, if_pos hyes]

/-- Witness for C8 at data_size 3, desired size 2 (divide_factor 2,
trimmed_size 2). -/
theorem trim_data_spec_witness :
    (2 = Nat.ceil ((3 : ℚ) / (2 : ℚ))) ∧ (2 = 3 / 2 + 1) ∧
    (SolBuf.mk [0, 1, 2] [5, 6, 7] [[1], [2], [3]]
        [9, 8, 7]).sol_time.length = 3 ∧
    (SolBuf.mk [0, 1, 2] [5, 6, 7] [[1], [2], [3]]
        [9, 8, 7]).sol_dt.length = 3 ∧
    (SolBuf.mk [0, 1, 2] [5, 6, 7] [[1], [2], [3]]
        [9, 8, 7]).sol_state.length = 3 ∧
    (SolBuf.mk [0, 1, 2] [5, 6, 7] [[1], [2], [3]]
        [9, 8, 7]).energy.length = 3 ∧
    (1 < 2) ∧ (2 < 3) ∧
    List.Pairwise (fun a b => a < b)
      (SolBuf.mk [0, 1, 2] [5, 6, 7] [[1], [2], [3]] [9, 8, 7]).sol_time ∧
    (0 : ℚ) ≤ (SolBuf.mk [0, 1, 2] [5, 6, 7] [[1], [2], [3]]
        [9, 8, 7]).sol_time.getD 0 0 ∧
    ((trim_data true 1 3 2 (SolBuf.mk [0, 1, 2] [5, 6, 7] [[1], [2], [3]]
        [9, 8, 7])).sol_time.length = 2 ∧
    (trim_data true 1 3 2 (SolBuf.mk [0, 1, 2] [5, 6, 7] [[1], [2], [3]]
        [9, 8, 7])).sol_dt.length = 2 ∧
    (trim_data true 1 3 2 (SolBuf.mk [0, 1, 2] [5, 6, 7] [[1], [2], [3]]
        [9, 8, 7])).sol_state.length = 2 ∧
    (true = true → (trim_data true 1 3 2 (SolBuf.mk [0, 1, 2] [5, 6, 7]
        [[1], [2], [3]] [9, 8, 7])).energy.length = 2) ∧
    (∀ j, j < 2 - 1 →
      (trim_data true 1 3 2 (SolBuf.mk [0, 1, 2] [5, 6, 7] [[1], [2], [3]]
          [9, 8, 7])).sol_time.getD j 0 =
        (SolBuf.mk [0, 1, 2] [5, 6, 7] [[1], [2], [3]]
          [9, 8, 7]).sol_time.getD (j * 2) 0 ∧
      (trim_data true 1 3 2 (SolBuf.mk [0, 1, 2] [5, 6, 7] [[1], [2], [3]]
          [9, 8, 7])).sol_dt.getD j 0 =
        (SolBuf.mk [0, 1, 2] [5, 6, 7] [[1], [2], [3]]
          [9, 8, 7]).sol_dt.getD (j * 2) 0 ∧
      (trim_data true 1 3 2 (SolBuf.mk [0, 1, 2] [5, 6, 7] [[1], [2], [3]]
          [9, 8, 7])).sol_state.getD j [] =
        (SolBuf.mk [0, 1, 2] [5, 6, 7] [[1], [2], [3]]
          [9, 8, 7]).sol_state.getD (j * 2) [] ∧
      (true = true → (trim_data true 1 3 2 (SolBuf.mk [0, 1, 2] [5, 6, 7]
          [[1], [2], [3]] [9, 8, 7])).energy.getD j 0 =
        (SolBuf.mk [0, 1, 2] [5, 6, 7] [[1], [2], [3]]
          [9, 8, 7]).energy.getD (j * 2) 0)) ∧
    ((trim_data true 1 3 2 (SolBuf.mk [0, 1, 2] [5, 6, 7] [[1], [2], [3]]
          [9, 8, 7])).sol_time.getD (2 - 1) 0 =
        (SolBuf.mk [0, 1, 2] [5, 6, 7] [[1], [2], [3]]
          [9, 8, 7]).sol_time.getD (3 - 1) 0 ∧
      (trim_data true 1 3 2 (SolBuf.mk [0, 1, 2] [5, 6, 7] [[1], [2], [3]]
          [9, 8, 7])).sol_dt.getD (2 - 1) 0 =
        (SolBuf.mk [0, 1, 2] [5, 6, 7] [[1], [2], [3]]
          [9, 8, 7]).sol_dt.getD (3 - 1) 0 ∧
      (trim_data true 1 3 2 (SolBuf.mk [0, 1, 2] [5, 6, 7] [[1], [2], [3]]
          [9, 8, 7])).sol_state.getD (2 - 1) [] =
        (SolBuf.mk [0, 1, 2] [5, 6, 7] [[1], [2], [3]]
          [9, 8, 7]).sol_state.getD (3 - 1) [] ∧
      (true = true → (trim_data true 1 3 2 (SolBuf.mk [0, 1, 2] [5, 6, 7]
          [[1], [2], [3]] [9, 8, 7])).energy.getD (2 - 1) 0 =
        (SolBuf.mk [0, 1, 2] [5, 6, 7] [[1], [2], [3]]
          [9, 8, 7]).energy.getD (3 - 1) 0))) :=
  ⟨by symm; rw [Nat.ceil_eq_iff (by norm_num)]; norm_num,
   by norm_num, rfl, rfl, rfl, rfl, by norm_num, by norm_num,
   by norm_num [List.pairwise_cons],
   by norm_num [List.getD],
   trim_data_spec true 1 3 2
     (SolBuf.mk [0, 1, 2] [5, 6, 7] [[1], [2], [3]] [9, 8, 7]) 2 2
     (by symm; rw [Nat.ceil_eq_iff (by norm_num)]; norm_num)
     (by norm_num) rfl rfl rfl rfl (by norm_num) (by norm_num)
     (by norm_num [List.pairwise_cons])
     (by norm_num [List.getD])⟩

end NBody
